import Mathlib

/-!
Verification of the polis-metadata-tool extraction core.

This file gives a shallow embedding, in Lean 4, of the extraction pipeline of
the repository (src/extractors/base_extractor.py, facebook_extractor.py,
tiktok_extractor.py, reddit_extractor.py and the relevant parts of src/app.py)
and proves or refutes the specification claims about it.

Modelling conventions used throughout:
- Python `None` and an absent dictionary key are both modelled as `Option.none`
  (the code reads all such fields through `dict.get`, which identifies them).
- Python machine floats are modelled as exact rationals; `round(x, 2)` is
  modelled as exact round-half-to-even at two decimal places on rationals.
- Python exceptions are modelled explicitly with the `PyResult` type; code
  that raises returns `PyResult.exn msg`, code that returns normally returns
  `PyResult.ok value`.
- Nondeterministic inputs of the program (HTTP responses, subprocess output,
  `datetime.now()`, the stream of `random.choices` draws) are inputs of the
  embedded functions, so each embedded function is a pure function of the
  program input plus its environment.
-/

/-- Result of running a piece of Python code: either a returned value or a
propagated exception carrying the exception's string rendering. -/
inductive PyResult (α : Type) where
  | ok (value : α) : PyResult α
  | exn (msg : String) : PyResult α
deriving DecidableEq, Repr

/-- True when the modelled Python value is "truthy": a present, non-empty
string (`bool(s)` for an optional string). -/
def truthyS : Option String → Bool
  | none => false
  | some s => s ≠ ""

/-- Truthiness of an optional integer: present and non-zero (`bool(n)`). -/
def truthyI : Option Int → Bool
  | none => false
  | some n => n ≠ 0

/-- Python `a or b` on optional strings: `b` unless `a` is truthy. -/
def pyOrS (a b : Option String) : Option String :=
  if truthyS a then a else b

/-- Python `a or b` on optional integers: `b` unless `a` is truthy. -/
def pyOrI (a b : Option Int) : Option Int :=
  if truthyI a then a else b

/-- Python `(a or b or '')` as used for the caption fields. -/
def pyOrEmpty (a b : Option String) : String :=
  (pyOrS a b).getD ""

/-- Lowercasing of ASCII characters (`str.lower` on the modelled inputs,
which are ASCII). -/
def asciiLower (c : Char) : Char :=
  if c.toNat ≥ 65 ∧ c.toNat ≤ 90 then Char.ofNat (c.toNat + 32) else c

/-- ASCII `str.lower()`. -/
def pyLowerAscii (s : String) : String := String.mk (s.data.map asciiLower)

/-- Python whitespace (`\s`, `str.strip`) on the ASCII range; the Unicode
whitespace Python additionally recognizes is outside the modelled inputs. -/
def isPyWs (c : Char) : Bool :=
  c = ' ' ∨ c = '\t' ∨ c = '\n' ∨ c = '\r' ∨ c = '\x0b' ∨ c = '\x0c'

/-- Python character-count slicing `s[:n]`. -/
def pyTakeStr (s : String) (n : Nat) : String := String.mk (s.data.take n)

/-- Uppercasing of ASCII characters. -/
def asciiUpper (c : Char) : Char :=
  if c.toNat ≥ 97 ∧ c.toNat ≤ 122 then Char.ofNat (c.toNat - 32) else c

/-- ASCII `str.upper()`. -/
def pyUpperAscii (s : String) : String := String.mk (s.data.map asciiUpper)

/-- Python `str.strip()` on ASCII whitespace. -/
def pyStrip (s : String) : String :=
  String.mk (((s.data.dropWhile isPyWs).reverse.dropWhile isPyWs).reverse)

/- ===================== engagement rate (base_extractor.py) ===================== -/

/-- The `missing` dictionary returned by
`BaseExtractor._calculate_engagement_rate_from_dict`: one flag per input,
true when that input was null. -/
structure MissingFlags where
  views : Bool
  likes : Bool
  comments : Bool
  shares : Bool
deriving DecidableEq, Repr

/-- Round-half-to-even to an integer, the rule used by Python `round` (the
binary-float rounding of CPython is modelled as exact rational rounding). -/
def roundHalfEven (q : ℚ) : ℤ :=
  let f : ℤ := ⌊q⌋
  let r : ℚ := q - f
  if r < 1/2 then f
  else if 1/2 < r then f + 1
  else if f % 2 = 0 then f else f + 1

/-- Python `round(x, 2)` on the exact-rational model. -/
def pyRound2 (q : ℚ) : ℚ := (roundHalfEven (q * 100) : ℚ) / 100

/-- `roundHalfEven` of the fraction `num / den`, computed on integers only
(so that it evaluates inside the kernel); `den` may be negative. -/
def roundHalfEvenFrac (num den : ℤ) : ℤ :=
  let n := if den < 0 then -num else num
  let d := if den < 0 then -den else den
  let q := n / d
  let r := n % d
  if 2 * r < d then q
  else if d < 2 * r then q + 1
  else if q % 2 = 0 then q else q + 1

/-- Python `round(num / den, 2)` as an exact rational, computed on integers
(equal to `pyRound2 ((num : ℚ) / den)`, proved below). -/
def pyRound2Rat (num den : ℤ) : ℚ := mkRat (roundHalfEvenFrac (100 * num) den) 100

/-- Embedding of `BaseExtractor._calculate_engagement_rate_from_dict`
(src/extractors/base_extractor.py lines 369-418).  The four inputs are the
values of the `views`/`likes`/`comments`/`shares` keys; integers or null.
The inner `try` of the source cannot fail on such inputs, so the catch-all
branch is dead and not modelled. -/
def calculate_engagement_rate_from_dict
    (views likes comments shares : Option Int) : Option ℚ × MissingFlags :=
  let missing : MissingFlags :=
    { views := views = none
      likes := likes = none
      comments := comments = none
      shares := shares = none }
  if views = none ∨ views = some 0 then
    (none, missing)
  else if likes = none ∧ comments = none ∧ shares = none then
    (none, missing)
  else
    let l : Int := likes.getD 0
    let c : Int := comments.getD 0
    let s : Int := shares.getD 0
    let engagements : Int := l + c + s
    (some (pyRound2Rat (100 * engagements) (views.getD 0)), missing)

/- ===================== detect_language (base_extractor.py) ===================== -/

/-- Embedding of `BaseExtractor.detect_language`
(src/extractors/base_extractor.py lines 138-180) on string inputs.  Python
`text[:200]` is the first 200 characters, `sample.strip()` is falsy exactly
when every character of the sample is whitespace, and `ord(c) < 128` tests
the codepoint.  The inner `try` cannot fail on a string input (the sample is
non-empty whenever the division is reached), so the catch-all branch is dead. -/
def detect_language (text : String) : Option String :=
  if text = "" then none
  else
    let sample := text.toList.take 200
    if sample.all isPyWs then none
    else
      let asciiCount := (sample.filter (fun c => c.toNat < 128)).length
      if mkRat asciiCount sample.length > mkRat 8 10 then some "en"
      else some "other"

/-- The language heuristic as the specification sentence describes it: null
for empty input, otherwise `en`/`other` purely by the ASCII ratio of the
first 200 characters (no whitespace-only escape).  Written from the spec's
words, for comparison with the source embedding. -/
def detect_language_spec (text : String) : Option String :=
  if text = "" then none
  else
    let sample := text.toList.take 200
    if mkRat (sample.countP (fun c => c.toNat < 128)) sample.length > mkRat 8 10
    then some "en" else some "other"

/-- The language heuristic as amended: additionally null when the sampled
first 200 characters are all whitespace. -/
def detect_language_amended (text : String) : Option String :=
  if text = "" then none
  else if (text.toList.take 200).all isPyWs then none
  else detect_language_spec text

/- ===================== hashing (hashlib.sha256 / hashlib.md5) ===================== -/

/-- Reduce modulo 2^32 (all hash arithmetic is on 32-bit words). -/
def w32 (n : Nat) : Nat := n % 4294967296

/-- Rotate a 32-bit word right by `n` bits. -/
def rotr32 (x n : Nat) : Nat := w32 ((x >>> n) + (x <<< (32 - n)))

/-- Rotate a 32-bit word left by `n` bits. -/
def rotl32 (x n : Nat) : Nat := w32 ((x <<< n) + (x >>> (32 - n)))

/-- Bitwise complement of a 32-bit word. -/
def not32 (x : Nat) : Nat := 4294967295 - x

/-- UTF-8 encoding of one character, as CPython's `str.encode` produces. -/
def utf8EncodeChar (c : Char) : List Nat :=
  let n := c.toNat
  if n < 128 then [n]
  else if n < 2048 then [192 + n / 64, 128 + n % 64]
  else if n < 65536 then [224 + n / 4096, 128 + (n / 64) % 64, 128 + n % 64]
  else [240 + n / 262144, 128 + (n / 4096) % 64, 128 + (n / 64) % 64, 128 + n % 64]

/-- UTF-8 encoding of a string as a byte list (`seed.encode()`). -/
def utf8Encode (s : String) : List Nat :=
  (s.data.map utf8EncodeChar).flatten

/-- Lowercase hexadecimal digit for a nibble. -/
def hexDigit (n : Nat) : Char :=
  if n < 10 then Char.ofNat (48 + n) else Char.ofNat (87 + n)

/-- Two lowercase hex digits of one byte. -/
def hexByte (b : Nat) : List Char := [hexDigit (b / 16 % 16), hexDigit (b % 16)]

/-- The 64 SHA-256 round constants (FIPS 180-4, written in decimal). -/
def sha256K : List Nat :=
  [1116352408, 1899447441, 3049323471, 3921009573, 961987163, 1508970993,
   2453635748, 2870763221, 3624381080, 310598401, 607225278, 1426881987,
   1925078388, 2162078206, 2614888103, 3248222580, 3835390401, 4022224774,
   264347078, 604807628, 770255983, 1249150122, 1555081692, 1996064986,
   2554220882, 2821834349, 2952996808, 3210313671, 3336571891, 3584528711,
   113926993, 338241895, 666307205, 773529912, 1294757372, 1396182291,
   1695183700, 1986661051, 2177026350, 2456956037, 2730485921, 2820302411,
   3259730800, 3345764771, 3516065817, 3600352804, 4094571909, 275423344,
   430227734, 506948616, 659060556, 883997877, 958139571, 1322822218,
   1537002063, 1747873779, 1955562222, 2024104815, 2227730452, 2361852424,
   2428436474, 2756734187, 3204031479, 3329325298]

/-- Merkle-Damgard padding shared by SHA-256 (big-endian length). -/
def sha256Pad (msg : List Nat) : List Nat :=
  let len := msg.length
  let zeros := (119 - len % 64) % 64
  let bitLen := 8 * len
  msg ++ [128] ++ List.replicate zeros 0 ++
    ((List.range 8).map (fun i => bitLen >>> (8 * (7 - i)) % 256))

/-- Split a byte list into 64-byte blocks (fuel-driven structural recursion;
the input length is always a multiple of 64 after padding). -/
def toBlocksAux : Nat → List Nat → List (List Nat)
  | 0, _ => []
  | _ + 1, [] => []
  | fuel + 1, l => l.take 64 :: toBlocksAux fuel (l.drop 64)

def toBlocks (l : List Nat) : List (List Nat) := toBlocksAux (l.length / 64 + 1) l

/-- The sixteen big-endian 32-bit words of one 64-byte block. -/
def blockWordsBE (block : List Nat) : List Nat :=
  (List.range 16).map (fun i =>
    block.getD (4 * i) 0 * 16777216 + block.getD (4 * i + 1) 0 * 65536 +
    block.getD (4 * i + 2) 0 * 256 + block.getD (4 * i + 3) 0)

def sha256SmallSigma0 (x : Nat) : Nat := (rotr32 x 7) ^^^ (rotr32 x 18) ^^^ (x >>> 3)
def sha256SmallSigma1 (x : Nat) : Nat := (rotr32 x 17) ^^^ (rotr32 x 19) ^^^ (x >>> 10)
def sha256BigSigma0 (x : Nat) : Nat := (rotr32 x 2) ^^^ (rotr32 x 13) ^^^ (rotr32 x 22)
def sha256BigSigma1 (x : Nat) : Nat := (rotr32 x 6) ^^^ (rotr32 x 11) ^^^ (rotr32 x 25)

/-- Extend the 16 message words to 64 (appends `fuel` further words). -/
def sha256Extend : Nat → List Nat → List Nat
  | 0, ws => ws
  | fuel + 1, ws =>
    let t := ws.length
    let w := w32 (sha256SmallSigma1 (ws.getD (t - 2) 0) + ws.getD (t - 7) 0 +
                  sha256SmallSigma0 (ws.getD (t - 15) 0) + ws.getD (t - 16) 0)
    sha256Extend fuel (ws ++ [w])

/-- One round of the SHA-256 compression function; the state is the list
`[a, b, c, d, e, f, g, h]`. -/
def sha256Round (st : List Nat) (kw : Nat × Nat) : List Nat :=
  let a := st.getD 0 0
  let b := st.getD 1 0
  let c := st.getD 2 0
  let d := st.getD 3 0
  let e := st.getD 4 0
  let f := st.getD 5 0
  let g := st.getD 6 0
  let h := st.getD 7 0
  let ch := (e &&& f) ^^^ ((not32 e) &&& g)
  let maj := (a &&& b) ^^^ (a &&& c) ^^^ (b &&& c)
  let t1 := w32 (h + sha256BigSigma1 e + ch + kw.1 + kw.2)
  let t2 := w32 (sha256BigSigma0 a + maj)
  [w32 (t1 + t2), a, b, c, w32 (d + t1), e, f, g]

/-- Process one 64-byte block. -/
def sha256Block (st : List Nat) (block : List Nat) : List Nat :=
  let ws := sha256Extend 48 (blockWordsBE block)
  let st' := (sha256K.zip ws).foldl sha256Round st
  (st.zip st').map (fun p => w32 (p.1 + p.2))

/-- SHA-256 of a byte list: the eight 32-bit state words of the digest. -/
def sha256Words (msg : List Nat) : List Nat :=
  (toBlocks (sha256Pad msg)).foldl sha256Block
    [1779033703, 3144134277, 1013904242, 2773480762, 1359893119, 2600822924, 528734635, 1541459225]

/-- Big-endian bytes of a 32-bit word. -/
def wordBytesBE (w : Nat) : List Nat := [w >>> 24 % 256, w >>> 16 % 256, w >>> 8 % 256, w % 256]

/-- `hashlib.sha256(seed.encode()).hexdigest()`: 64 lowercase hex characters. -/
def sha256Hexdigest (seed : String) : String :=
  String.mk ((((sha256Words (utf8Encode seed)).map wordBytesBE).flatten.map hexByte).flatten)

/-- The 64 MD5 round constants (RFC 1321). -/
def md5K : List Nat :=
  [0xd76aa478, 0xe8c7b756, 0x242070db, 0xc1bdceee, 0xf57c0faf, 0x4787c62a, 0xa8304613, 0xfd469501,
   0x698098d8, 0x8b44f7af, 0xffff5bb1, 0x895cd7be, 0x6b901122, 0xfd987193, 0xa679438e, 0x49b40821,
   0xf61e2562, 0xc040b340, 0x265e5a51, 0xe9b6c7aa, 0xd62f105d, 0x02441453, 0xd8a1e681, 0xe7d3fbc8,
   0x21e1cde6, 0xc33707d6, 0xf4d50d87, 0x455a14ed, 0xa9e3e905, 0xfcefa3f8, 0x676f02d9, 0x8d2a4c8a,
   0xfffa3942, 0x8771f681, 0x6d9d6122, 0xfde5380c, 0xa4beea44, 0x4bdecfa9, 0xf6bb4b60, 0xbebfbc70,
   0x289b7ec6, 0xeaa127fa, 0xd4ef3085, 0x04881d05, 0xd9d4d039, 0xe6db99e5, 0x1fa27cf8, 0xc4ac5665,
   0xf4292244, 0x432aff97, 0xab9423a7, 0xfc93a039, 0x655b59c3, 0x8f0ccc92, 0xffeff47d, 0x85845dd1,
   0x6fa87e4f, 0xfe2ce6e0, 0xa3014314, 0x4e0811a1, 0xf7537e82, 0xbd3af235, 0x2ad7d2bb, 0xeb86d391]

/-- The 64 MD5 per-round left-rotation amounts. -/
def md5S : List Nat :=
  [7, 12, 17, 22, 7, 12, 17, 22, 7, 12, 17, 22, 7, 12, 17, 22,
   5, 9, 14, 20, 5, 9, 14, 20, 5, 9, 14, 20, 5, 9, 14, 20,
   4, 11, 16, 23, 4, 11, 16, 23, 4, 11, 16, 23, 4, 11, 16, 23,
   6, 10, 15, 21, 6, 10, 15, 21, 6, 10, 15, 21, 6, 10, 15, 21]

/-- MD5 padding: like SHA-256 but the length is appended little-endian. -/
def md5Pad (msg : List Nat) : List Nat :=
  let len := msg.length
  let zeros := (119 - len % 64) % 64
  let bitLen := 8 * len
  msg ++ [128] ++ List.replicate zeros 0 ++
    ((List.range 8).map (fun i => bitLen >>> (8 * i) % 256))

/-- The sixteen little-endian 32-bit words of one 64-byte block. -/
def blockWordsLE (block : List Nat) : List Nat :=
  (List.range 16).map (fun i =>
    block.getD (4 * i) 0 + block.getD (4 * i + 1) 0 * 256 +
    block.getD (4 * i + 2) 0 * 65536 + block.getD (4 * i + 3) 0 * 16777216)

/-- One MD5 operation; the state is `[a, b, c, d]`, `i` the operation index. -/
def md5Op (ws : List Nat) (st : List Nat) (i : Nat) : List Nat :=
  let a := st.getD 0 0
  let b := st.getD 1 0
  let c := st.getD 2 0
  let d := st.getD 3 0
  let f :=
    if i < 16 then (b &&& c) ||| ((not32 b) &&& d)
    else if i < 32 then (d &&& b) ||| ((not32 d) &&& c)
    else if i < 48 then b ^^^ c ^^^ d
    else c ^^^ (b ||| (not32 d))
  let g :=
    if i < 16 then i
    else if i < 32 then (5 * i + 1) % 16
    else if i < 48 then (3 * i + 5) % 16
    else (7 * i) % 16
  let a' := w32 (b + rotl32 (w32 (a + f + md5K.getD i 0 + ws.getD g 0)) (md5S.getD i 0))
  [d, a', b, c]

/-- Process one 64-byte MD5 block. -/
def md5Block (st : List Nat) (block : List Nat) : List Nat :=
  let ws := blockWordsLE block
  let st' := (List.range 64).foldl (md5Op ws) st
  (st.zip st').map (fun p => w32 (p.1 + p.2))

/-- Little-endian bytes of a 32-bit word. -/
def wordBytesLE (w : Nat) : List Nat := [w % 256, w >>> 8 % 256, w >>> 16 % 256, w >>> 24 % 256]

/-- `hashlib.md5(s.encode()).hexdigest()`: 32 lowercase hex characters. -/
def md5Hexdigest (s : String) : String :=
  let final := (toBlocks (md5Pad (utf8Encode s))).foldl md5Block
    [0x67452301, 0xefcdab89, 0x98badcfe, 0x10325476]
  String.mk (((final.map wordBytesLE).flatten.map hexByte).flatten)

/- ===================== identifier generation (base_extractor.py) ===================== -/

/-- Embedding of `BaseExtractor.generate_post_id` with a seed
(src/extractors/base_extractor.py lines 88-110, seeded branch):
`"po_" + hashlib.sha256(seed.encode()).hexdigest()[:14].lower()`. -/
def generate_post_id_seeded (seed : String) : String :=
  "po_" ++ pyLowerAscii (pyTakeStr (sha256Hexdigest seed) 14)

/-- Embedding of `BaseExtractor.generate_op_id` with a seed
(src/extractors/base_extractor.py lines 112-134, seeded branch). -/
def generate_op_id_seeded (seed : String) : String :=
  "op_" ++ pyLowerAscii (pyTakeStr (sha256Hexdigest seed) 14)

/-- The alphabet `string.ascii_lowercase + string.digits` used for random ids. -/
def idAlphabet : List Char := "abcdefghijklmnopqrstuvwxyz0123456789".data

/-- Character drawn from the 36-symbol id alphabet. -/
def idChar (i : Fin 36) : Char := idAlphabet.getD i.val ' '

/-- Embedding of `BaseExtractor.generate_post_id` without a seed: the fourteen
`random.choices` draws are an explicit input. -/
def generate_post_id_random (draws : Fin 14 → Fin 36) : String :=
  "po_" ++ String.mk ((List.ofFn draws).map idChar)

/-- Embedding of `BaseExtractor.generate_op_id` without a seed. -/
def generate_op_id_random (draws : Fin 14 → Fin 36) : String :=
  "op_" ++ String.mk ((List.ofFn draws).map idChar)

/- ===================== regex machinery (re.search on the used patterns) ===================== -/

/-- Length of the longest `p`-satisfying run at the head of the text. -/
def countWhile (p : Char → Bool) : List Char → Nat
  | [] => 0
  | c :: r => if p c then countWhile p r + 1 else 0

/-- Greedy backtracking for a character-class star: try consuming `k` chars,
then `k - 1`, ... down to `0`, taking the first continuation that succeeds. -/
def longestFirst (cont : List Char → Option α) (t : List Char) : Nat → Option α
  | 0 => cont t
  | j + 1 =>
    match cont (t.drop (j + 1)) with
    | some v => some v
    | none => longestFirst cont t j

/-- Match a literal, then continue. -/
def mLit (lit : List Char) (cont : List Char → Option α) (t : List Char) : Option α :=
  if t.take lit.length = lit then cont (t.drop lit.length) else none

/-- Match a greedy character-class star `[..]*`, then continue. -/
def mStar (p : Char → Bool) (cont : List Char → Option α) (t : List Char) : Option α :=
  longestFirst cont t (countWhile p t)

/-- Match `\s*`, then continue. -/
def mWs (cont : List Char → Option α) (t : List Char) : Option α :=
  mStar isPyWs cont t

/-- Leftmost-first alternation of two pattern pieces. -/
def mAlt (m1 m2 : (List Char → Option α) → List Char → Option α)
    (cont : List Char → Option α) (t : List Char) : Option α :=
  match m1 cont t with
  | some v => some v
  | none => m2 cont t

/-- Numeric value of a digit run. -/
def digitsVal (cs : List Char) : Nat := cs.foldl (fun a c => a * 10 + (c.toNat - 48)) 0

/-- Greedy backtracking over the length of a captured `(\d+)` group. -/
def digitsLongest (cont : Nat → List Char → Option α) (t : List Char) : Nat → Option α
  | 0 => none
  | j + 1 =>
    match cont (digitsVal (t.take (j + 1))) (t.drop (j + 1)) with
    | some v => some v
    | none => digitsLongest cont t j

/-- Match a captured `(\d+)`, then continue with its numeric value. -/
def mDigits (cont : Nat → List Char → Option α) (t : List Char) : Option α :=
  digitsLongest cont t (countWhile Char.isDigit t)

/-- Greedy backtracking over the length of a captured `([^c]+)` group. -/
def classLongest (cont : List Char → List Char → Option α) (t : List Char) : Nat → Option α
  | 0 => none
  | j + 1 =>
    match cont (t.take (j + 1)) (t.drop (j + 1)) with
    | some v => some v
    | none => classLongest cont t j

/-- Match a captured `([^q]+)` (any char except `q`, at least one), then
continue with the captured characters. -/
def mClassPlusCapture (q : Char) (cont : List Char → List Char → Option α)
    (t : List Char) : Option α :=
  classLongest cont t (countWhile (fun c => c ≠ q) t)

/-- `re.search`: try the pattern at position 0, 1, ... (leftmost match wins).
The fuel is the number of start positions still to try. -/
def searchFrom (m : List Char → Option α) : Nat → List Char → Option α
  | 0, _ => none
  | fuel + 1, t =>
    match m t with
    | some v => some v
    | none =>
      match t with
      | [] => none
      | _ :: rest => searchFrom m fuel rest

/-- `re.search(pattern, text)` for a pattern embedded as a matcher `m`. -/
def pySearch (m : List Char → Option α) (t : List Char) : Option α :=
  searchFrom m (t.length + 1) t

/-- Start offsets of the non-overlapping occurrences of a literal pattern, in
document order (`re.finditer` on a literal). -/
def finditerAux (pat : List Char) : Nat → List Char → Nat → List Nat
  | 0, _, _ => []
  | _ + 1, [], _ => []
  | fuel + 1, t@(_ :: rest), pos =>
    if t.take pat.length = pat ∧ pat ≠ [] then
      pos :: finditerAux pat fuel (t.drop pat.length) (pos + pat.length)
    else
      finditerAux pat fuel rest (pos + 1)

def finditer (pat t : List Char) : List Nat := finditerAux pat (t.length + 1) t 0

/- ========== FacebookExtractor._parse_compact_number and like extraction ========== -/

/-- `s.isdigit()` on ASCII text: non-empty and all digits. -/
def pyIsdigit (s : String) : Bool := s ≠ "" ∧ s.data.all Char.isDigit

/-- Simplified `float()` of a `[\d\.]+` token, as an exact numerator/
denominator pair over the decimal representation (CPython's binary-float
value is modelled as the exact decimal rational; two or more dots raise
`ValueError`, modelled as `none`). -/
def parseFloatToken (cs : List Char) : Option (Nat × Nat) :=
  let a := cs.takeWhile (fun c => c ≠ '.')
  let rest := cs.dropWhile (fun c => c ≠ '.')
  match rest with
  | [] => some (digitsVal a, 1)
  | _ :: b =>
    if b.all Char.isDigit then
      if a = [] ∧ b = [] then none
      else some (digitsVal a * 10 ^ b.length + digitsVal b, 10 ^ b.length)
    else none

/-- Embedding of `FacebookExtractor._parse_compact_number`
(src/extractors/facebook_extractor.py lines 130-157): parse strings like
`1.4K`, `2.3M`, `987`, `12,345` into integers.  The source strips, uppercases
and removes commas, matches `^([\d\.]+)\s*([KMB])?$`, and scales by the
suffix; `int()` of a non-negative float is its floor. -/
def parse_compact_number (s : String) : Option Int :=
  if s = "" then none
  else
    let t := ((pyUpperAscii (pyStrip s)).data.filter (fun c => c ≠ ','))
    let k := countWhile (fun c => c.isDigit ∨ c = '.') t
    let afterNum := t.drop k
    let w := countWhile isPyWs afterNum
    let afterWs := afterNum.drop w
    let matched : Option (List Char × Option Char) :=
      if k = 0 then none
      else match afterWs with
        | [] => some (t.take k, none)
        | c :: rest =>
          if (c = 'K' ∨ c = 'M' ∨ c = 'B') ∧ rest = [] then some (t.take k, some c)
          else none
    match matched with
    | none =>
      if (String.mk t).data.all Char.isDigit ∧ t ≠ [] then some (digitsVal t : Int)
      else none
    | some (numStr, suffix) =>
      match parseFloatToken numStr with
      | none => none
      | some (bn, bd) =>
        match suffix with
        | none => some ((bn / bd : Nat) : Int)
        | some c =>
          if c = 'K' then some ((bn * 1000 / bd : Nat) : Int)
          else if c = 'M' then some ((bn * 1000000 / bd : Nat) : Int)
          else some ((bn * 1000000000 / bd : Nat) : Int)

/-- The targeted metric-block pattern of `_extract_likes_targeted`:
`"feedback"\s*:\s*\{[^}]*"(?:likers|unified_reactors)"\s*:\s*\{[^}]*"count"\s*:\s*(\d+)`. -/
def feedbackLikesPat (t : List Char) : Option Nat :=
  mLit "\"feedback\"".data (mWs (mLit ":".data (mWs (mLit "\x7b".data (
    mStar (fun c => c ≠ '\x7d') (
      mAlt (mLit "\"likers\"".data) (mLit "\"unified_reactors\"".data) (
        mWs (mLit ":".data (mWs (mLit "\x7b".data (
          mStar (fun c => c ≠ '\x7d') (
            mLit "\"count\"".data (mWs (mLit ":".data (mWs (
              mDigits (fun n _ => some n))))))))))))))))) t

/-- Pattern `"likers"\s*:\s*\{"count"\s*:\s*(\d+)\}` of `_extract_likes_old`. -/
def likersSimplePat (t : List Char) : Option Nat :=
  mLit "\"likers\"".data (mWs (mLit ":".data (mWs (mLit "\x7b\"count\"".data (
    mWs (mLit ":".data (mWs (mDigits (fun n =>
      mLit "\x7d".data (fun _ => some n)))))))))) t

/-- Pattern `"unified_reactors"\s*:\s*\{"count"\s*:\s*(\d+)\}`. -/
def unifiedSimplePat (t : List Char) : Option Nat :=
  mLit "\"unified_reactors\"".data (mWs (mLit ":".data (mWs (mLit "\x7b\"count\"".data (
    mWs (mLit ":".data (mWs (mDigits (fun n =>
      mLit "\x7d".data (fun _ => some n)))))))))) t

/-- Pattern `"i18n_reaction_count"\s*:\s*"([^"]+)"`. -/
def i18nReactionPat (t : List Char) : Option String :=
  mLit "\"i18n_reaction_count\"".data (mWs (mLit ":".data (mWs (mLit "\"".data (
    mClassPlusCapture '"' (fun cap =>
      mLit "\"".data (fun _ => some (String.mk cap)))))))) t

/-- Pattern `"reaction_count"\s*:\s*(\d+)`. -/
def reactionCountPat (t : List Char) : Option Nat :=
  mLit "\"reaction_count\"".data (mWs (mLit ":".data (mWs (
    mDigits (fun n _ => some n))))) t

/-- Case-insensitive check for the engagement words of the og:description
pattern: `(?:like|likes|reaction|reactions)` (the first alternative that
applies wins; nothing follows the alternation, so matching `like` on a
`likes` text is enough). -/
def likeWordAt (t : List Char) : Bool :=
  (t.take 4).map asciiLower = "like".data ∨ (t.take 8).map asciiLower = "reaction".data

/-- Matcher for `(\d[\d,\.]*\s*[KMB]?)\s+(?:like|likes|reaction|reactions)`
with `re.I` (the og:description fallback of `_extract_likes_old`): returns
the captured amount group. -/
def compactAmountPat (wordAt : List Char → Bool) (t : List Char) : Option String :=
  match t with
  | [] => none
  | c0 :: rest =>
    if ¬ c0.isDigit then none
    else
      let r1 := countWhile (fun c => c.isDigit ∨ c = ',' ∨ c = '.') rest
      let numPart := c0 :: rest.take r1
      let afterNum := rest.drop r1
      let w := countWhile isPyWs afterNum
      -- greedy over the group-internal `\s*`, then the optional `[KMB]?`
      -- (case-insensitive), then the mandatory `\s+` and the word.
      let tryAt (j : Nat) : Option String :=
        let afterSp := afterNum.drop j
        let base := numPart ++ afterNum.take j
        let withK : Option String :=
          match afterSp with
          | k :: restK =>
            if asciiLower k = 'k' ∨ asciiLower k = 'm' ∨ asciiLower k = 'b' then
              let w2 := countWhile isPyWs restK
              if w2 ≥ 1 ∧ wordAt (restK.drop w2) then some (String.mk (base ++ [k]))
              else none
            else none
          | [] => none
        match withK with
        | some v => some v
        | none =>
          let w2 := countWhile isPyWs afterSp
          if w2 ≥ 1 ∧ wordAt (afterSp.drop w2) then some (String.mk base) else none
      let rec go : Nat → Option String
        | 0 => tryAt 0
        | j + 1 => match tryAt (j + 1) with | some v => some v | none => go j
      go w

/-- Attribute scan standing in for
`soup.find("meta", property="og:description")["content"]`: the content of the
first og:description meta tag in its canonical serialization.  (BeautifulSoup
also accepts permuted attributes and entity escapes; the documents modelled
here use the canonical form.) -/
def findOgDescription (html : List Char) : Option String :=
  pySearch (fun t =>
    mLit "<meta property=\"og:description\" content=\"".data (
      mStar (fun c => c ≠ '"') (fun rest =>
        some (String.mk (t.drop 41 |>.take (t.length - 41 - rest.length))))) t) html

/-- Embedding of `FacebookExtractor._extract_likes_old`
(src/extractors/facebook_extractor.py lines 695-739): the untargeted global
pattern cascade over the whole document. -/
def extract_likes_old (html : List Char) : Option Int :=
  match pySearch likersSimplePat html with
  | some n => some (n : Int)
  | none =>
  match pySearch unifiedSimplePat html with
  | some n => some (n : Int)
  | none =>
  match (pySearch i18nReactionPat html).bind (fun s => parse_compact_number s) with
  | some n => some n
  | none =>
  match pySearch reactionCountPat html with
  | some n => some (n : Int)
  | none =>
  match findOgDescription html with
  | some text =>
    match (pySearch (compactAmountPat likeWordAt) text.data).bind
        (fun s => parse_compact_number s) with
    | some n => some n
    | none => none
  | none => none

/-- Visit the quoted-identifier occurrences in document order; at each, run
the pattern over the 10,000-character window forward from the occurrence,
then over the 10,000-character window backward from it; first match wins. -/
def firstWindowHit (m : List Char → Option Nat) (html : List Char) :
    List Nat → Option Nat
  | [] => none
  | pos :: rest =>
    match pySearch m ((html.drop pos).take 10000) with
    | some v => some v
    | none =>
      match pySearch m ((html.take pos).drop (pos - 10000)) with
      | some v => some v
      | none => firstWindowHit m html rest

/-- Embedding of `FacebookExtractor._extract_likes_targeted`
(src/extractors/facebook_extractor.py lines 510-574). -/
def extract_likes_targeted (html : List Char) (targetId : Option String) : Option Int :=
  match targetId with
  | none => extract_likes_old html
  | some tid =>
    if tid = "" then extract_likes_old html
    else if tid.data.take 5 = "pfbid".data ∨ (¬ pyIsdigit tid ∧ tid.length ≤ 15) then
      extract_likes_old html
    else
      let positions := finditer (('"' :: tid.data) ++ ['"']) html
      match firstWindowHit feedbackLikesPat html positions with
      | some n => some (n : Int)
      | none => extract_likes_old html

/- ===================== record types of the dual output ===================== -/

/-- The raw metadata field bag a platform `extract_metadata` returns
(canonical keys; a key that is absent or null is `none`). -/
structure RawMeta where
  extraction_status : Option String
  error_message : Option String
  url : Option String
  title : Option String
  content : Option String
  hashtags : Option (List String)
  publish_date : Option String
  views : Option Int
  likes : Option Int
  shares : Option Int
  comments : Option Int
  saves : Option Int
  reposts : Option Int
  author : Option String
  author_bio : Option String
  bio : Option String
  author_followers : Option Int
  followers : Option Int
  author_following : Option Int
  following : Option Int
  author_post_count : Option Int
  post_count : Option Int
  is_video : Option Bool
  post_hint : Option String
  media_urls : Option (List String)
deriving DecidableEq, Repr

/-- The raw field bag with every key absent. -/
def emptyRawMeta : RawMeta :=
  ⟨none, none, none, none, none, none, none, none, none, none, none, none, none,
   none, none, none, none, none, none, none, none, none, none, none, none⟩

/-- Joined (`", "`) hashtag rendering or a plain list: the dynamic value of
the `Post_hashtags` key differs between extractors. -/
inductive StrOrList where
  | str (s : String)
  | list (l : List String)
deriving DecidableEq, Repr

/-- The `Post_`-prefixed record handed back as the first tuple element.  The
failure dictionary's `url`/`platform` keys are identified with the success
record's `Post_url`/`Post_platform` fields (the two shapes never coexist). -/
structure PostRecord where
  postId : Option String
  caption : Option String
  title : Option String
  hashtags : Option StrOrList
  postType : Option String
  postDate : Option String
  extractedDate : Option String
  platform : Option String
  views : Option Int
  likes : Option Int
  shares : Option Int
  comments : Option Int
  saves : Option Int
  reposts : Option Int
  engagementRate : Option ℚ
  url : Option String
  language : Option String
  opUsername : Option String
  opId : Option String
  extraction_status : Option String
  error_message : Option String
deriving DecidableEq, Repr

/-- The post record with every key absent. -/
def emptyPostRecord : PostRecord :=
  ⟨none, none, none, none, none, none, none, none, none, none, none,
   none, none, none, none, none, none, none, none, none, none⟩

/-- The error dictionary built on every failure path of `extract`:
`extraction_status`, `error_message`, `url` and `platform` only. -/
def errorPostRecord (msg url platform : String) : PostRecord :=
  { emptyPostRecord with
      extraction_status := some "failed"
      error_message := some msg
      url := some url
      platform := some platform }

/-- The `OP_`-prefixed record handed back as the second tuple element. -/
structure OpRecord where
  username : Option String
  opId : Option String
  bio : Option String
  followers : Option Int
  following : Option Int
  postCount : Option Int
  platform : Option String
deriving DecidableEq, Repr

/- ===================== BaseExtractor: post type, formatting, extract ===================== -/

/-- Truthiness of an optional boolean field (`bool(d.get(k))`). -/
def truthyB (b : Option Bool) : Bool := b = some true

/-- Truthiness of an optional list field: present and non-empty. -/
def truthyL (l : Option (List String)) : Bool :=
  match l with
  | some (_ :: _) => true
  | _ => false

/-- Embedding of `BaseExtractor.detect_post_type`
(src/extractors/base_extractor.py lines 184-235). -/
def detect_post_type (platform : String) (m : RawMeta) : String :=
  if platform = "tiktok" ∨ platform = "youtube" then "video"
  else if platform = "news" then "article"
  else if platform = "reddit" then
    if truthyB m.is_video then "video"
    else if m.post_hint.getD "" = "image" then "image"
    else if m.post_hint.getD "" = "link" then "link"
    else if truthyL m.media_urls ∧ ¬ truthyS m.content then "image"
    else if truthyS m.content then "text"
    else "link"
  else if platform = "facebook" then "unknown"
  else "unknown"

/-- Embedding of `BaseExtractor.format_post_csv_data`
(src/extractors/base_extractor.py lines 239-284); `selfUrl` is `self.url`,
`now` the `datetime.now().isoformat()` timestamp. -/
def format_post_csv_data (platform selfUrl now : String) (m : RawMeta)
    (post_id op_id : String) : PostRecord :=
  { postId := some post_id
    caption := some (pyOrEmpty m.content m.title)
    title := m.title
    hashtags := some (.list (m.hashtags.getD []))
    postType := some (detect_post_type platform m)
    postDate := m.publish_date
    extractedDate := some now
    platform := some platform
    views := m.views
    likes := m.likes
    shares := m.shares
    comments := m.comments
    saves := m.saves
    reposts := m.reposts
    engagementRate := (calculate_engagement_rate_from_dict m.views m.likes m.comments m.shares).1
    url := pyOrS m.url (some selfUrl)
    language := detect_language (pyOrEmpty m.content m.title)
    opUsername := m.author
    opId := some op_id
    extraction_status := none
    error_message := none }

/-- Embedding of `BaseExtractor.format_op_csv_data`
(src/extractors/base_extractor.py lines 286-307). -/
def format_op_csv_data (platform : String) (m : RawMeta) (op_id : String) : OpRecord :=
  { username := m.author
    opId := some op_id
    bio := pyOrS m.author_bio m.bio
    followers := pyOrI m.author_followers m.followers
    following := pyOrI m.author_following m.following
    postCount := pyOrI m.author_post_count m.post_count
    platform := some platform }

/-- First element of the tuple `extract` returns: either the formatted post
record, or the subclass metadata dictionary passed through verbatim (the
branch taken when `extract_metadata` itself reported `failed`). -/
inductive ExtractedPost where
  | formatted (p : PostRecord)
  | passthrough (m : RawMeta)
deriving DecidableEq, Repr

/-- The `extraction_status` value of either shape of first element. -/
def ExtractedPost.status : ExtractedPost → Option String
  | .formatted p => p.extraction_status
  | .passthrough m => m.extraction_status

/-- The `error_message` value of either shape of first element. -/
def ExtractedPost.errMsg : ExtractedPost → Option String
  | .formatted p => p.error_message
  | .passthrough m => m.error_message

/-- Everything subclass- and environment-specific that
`BaseExtractor.extract` consumes in one run: the platform tag, `self.url`,
the timestamp, the outcome of `validate_url` and of `extract_metadata`
(either of which may raise), and the `random.choices` draws for the two ids. -/
structure SubBehavior where
  platform : String
  url : String
  now : String
  validate : PyResult Bool
  extractMetadata : PyResult RawMeta
  postDraws : Fin 14 → Fin 36
  opDraws : Fin 14 → Fin 36

/-- Embedding of `BaseExtractor.extract`
(src/extractors/base_extractor.py lines 311-365).  The whole body runs under
`try`, so an exception from `validate_url` or `extract_metadata` is caught
and converted into the error dictionary with the exception's message; the
`time.sleep` rate-limit call has no modelled effect. -/
def baseExtract (b : SubBehavior) : PyResult (ExtractedPost × Option OpRecord) :=
  match b.validate with
  | .exn m => .ok (.formatted (errorPostRecord m b.url b.platform), none)
  | .ok false =>
    .ok (.formatted (errorPostRecord "Invalid URL format for this platform" b.url b.platform), none)
  | .ok true =>
    match b.extractMetadata with
    | .exn m => .ok (.formatted (errorPostRecord m b.url b.platform), none)
    | .ok extracted =>
      if extracted.extraction_status = some "failed" then
        .ok (.passthrough extracted, none)
      else
        let post_id := generate_post_id_random b.postDraws
        let op_id := generate_op_id_random b.opDraws
        let post := format_post_csv_data b.platform b.url b.now extracted post_id op_id
        let op := format_op_csv_data b.platform extracted op_id
        .ok (.formatted { post with extraction_status := some "success" }, some op)

/- ===================== RedditExtractor (reddit_extractor.py) ===================== -/

/-- Python `\w` on the ASCII range. -/
def isWordChar (c : Char) : Bool := c.isAlphanum ∨ c = '_'

/-- Greedy backtracking `[..]+`: try consuming `k` chars down to 1. -/
def plusLongest (cont : List Char → Option α) (t : List Char) : Nat → Option α
  | 0 => none
  | j + 1 =>
    match cont (t.drop (j + 1)) with
    | some v => some v
    | none => plusLongest cont t j

/-- Match a greedy character-class plus `[..]+`, then continue. -/
def mPlus (p : Char → Bool) (cont : List Char → Option α) (t : List Char) : Option α :=
  plusLongest cont t (countWhile p t)

/-- Match a captured greedy `([..]+)`, then continue with the captured text. -/
def mPlusCap (p : Char → Bool) (cont : List Char → List Char → Option α)
    (t : List Char) : Option α :=
  classLongest cont t (countWhile p t)

/-- Embedding of `RedditExtractor.validate_url`
(src/extractors/reddit_extractor.py lines 19-27): any of the three patterns
`reddit\.com/r/[\w]+/comments/`, `redd\.it/`,
`reddit\.com/user/[\w]+/comments/` matches somewhere in the URL. -/
def redditValidate (url : String) : Bool :=
  (pySearch (fun t => mLit "reddit.com/r/".data
      (mPlus isWordChar (mLit "/comments/".data (fun _ => some ()))) t) url.data).isSome
  ∨ (pySearch (fun t => mLit "redd.it/".data (fun _ => some ()) t) url.data).isSome
  ∨ (pySearch (fun t => mLit "reddit.com/user/".data
      (mPlus isWordChar (mLit "/comments/".data (fun _ => some ()))) t) url.data).isSome

/-- The ways `RedditExtractor.extract_metadata` terminates exceptionally
(src/extractors/reddit_extractor.py lines 116-123): a `Timeout`, a
`ConnectionError`, a `KeyError` over the JSON shape, or any other exception
(including the HTTP-status raises of lines 58-63, which the catch-all
re-wraps); `s` is the inner exception's rendering. -/
inductive RedditFailure where
  | timeout
  | connectionError
  | keyErr (s : String)
  | other (s : String)
deriving DecidableEq, Repr

/-- The exception message each failure propagates out of `extract_metadata`. -/
def redditFailureMessage : RedditFailure → String
  | .timeout => "Request timeout - Reddit took too long to respond"
  | .connectionError => "Connection error - Could not reach Reddit"
  | .keyErr s => "Unexpected Reddit JSON structure: " ++ s
  | .other s => "Failed to extract Reddit metadata: " ++ s

/-- One run of `RedditExtractor.extract_metadata` either raises one of the
wrapped failures or returns the metadata dictionary of lines 73-104; that
dictionary literal contains no `extraction_status` and no `error_message`
key, which is all the pipeline theorems need about it, so its variable
fields are taken from an arbitrary bag `m`. -/
inductive RedditOutcome where
  | success (m : RawMeta)
  | failure (f : RedditFailure)

/-- The `SubBehavior` of one `RedditExtractor` run: platform tag `reddit`,
the pure regex validation, and the modelled `extract_metadata`. -/
def redditBehavior (url now : String) (outcome : RedditOutcome)
    (pd od : Fin 14 → Fin 36) : SubBehavior :=
  { platform := "reddit"
    url := url
    now := now
    validate := .ok (redditValidate url)
    extractMetadata :=
      match outcome with
      | .success m => .ok { m with extraction_status := none, error_message := none }
      | .failure f => .exn (redditFailureMessage f)
    postDraws := pd
    opDraws := od }

/- ===================== TikTokExtractor (tiktok_extractor.py) ===================== -/

/-- Embedding of `TikTokExtractor.validate_url`
(src/extractors/tiktok_extractor.py lines 95-130): a standard
`tiktok\.com/@[\w.-]+/video/(\d+)` URL or a `vm.`/`vt.` short link. -/
def tiktokValidate (url : String) : Bool :=
  (pySearch (fun t => mLit "tiktok.com/@".data
      (mPlus (fun c => isWordChar c ∨ c = '.' ∨ c = '-')
        (mLit "/video/".data (mPlus Char.isDigit (fun _ => some ())))) t) url.data).isSome
  ∨ (pySearch (fun t => mLit "vm.tiktok.com/".data
      (mPlus Char.isAlphanum (fun _ => some ())) t) url.data).isSome
  ∨ (pySearch (fun t => mLit "vt.tiktok.com/".data
      (mPlus Char.isAlphanum (fun _ => some ())) t) url.data).isSome

/-- Capture of `re.search(r"tiktok\.com/@([\w.-]+)/video", url)`. -/
def tiktokUsernameFromUrl (url : String) : Option String :=
  pySearch (fun t => mLit "tiktok.com/@".data
    (mPlusCap (fun c => isWordChar c ∨ c = '.' ∨ c = '-')
      (fun cap => mLit "/video".data (fun _ => some (String.mk cap)))) t) url.data

/-- The RAW post data bag the `tiktok_post_standalone.py` subprocess returns. -/
structure TkPostRaw where
  title : Option String
  author : Option String
  author_id : Option String
  content : Option String
  publish_date : Option String
  views : Option Int
  likes : Option Int
  comments : Option Int
  shares : Option Int
  saves : Option Int
  hashtags : Option (List String)
deriving DecidableEq, Repr

/-- The RAW profile data bag the `tiktok_op_standalone.py` subprocess returns. -/
structure TkProfileRaw where
  bio : Option String
  followers : Option Int
  following : Option Int
  video_count : Option Int
deriving DecidableEq, Repr

/-- Embedding of `TikTokExtractor._detect_language`
(src/extractors/tiktok_extractor.py lines 400-415): like the base heuristic
but null for any falsy input. -/
def tk_detect_language (text : Option String) : Option String :=
  if ¬ truthyS text then none
  else detect_language (text.getD "")

/-- Embedding of the inline engagement-rate computation of
`TikTokExtractor._build_phase2_structure` (lines 320-329); unlike the base
formula it requires a strictly positive view count and a truthy (non-zero)
engagement value. -/
def tk_engagement_rate (views likes comments shares : Option Int) : Option ℚ :=
  if truthyI views ∧ views.getD 0 > 0 then
    let l := likes.getD 0
    let c := comments.getD 0
    let s := shares.getD 0
    if l ≠ 0 ∨ c ≠ 0 ∨ s ≠ 0 then
      some (pyRound2Rat (100 * (l + c + s)) (views.getD 0))
    else none
  else none

/-- Embedding of the `username` computation of `TikTokExtractor.extract_metadata`
(lines 166-174): the post's `author_id` if truthy, else the URL capture,
else `Unknown`. -/
def tkUsername (url : String) (author_id : Option String) : String :=
  if truthyS author_id then author_id.getD ""
  else
    match tiktokUsernameFromUrl url with
    | some u => u
    | none => "Unknown"

/-- Embedding of `TikTokExtractor._build_phase2_structure`
(src/extractors/tiktok_extractor.py lines 298-368). -/
def tk_build_phase2_structure (url now : String) (post_raw : TkPostRaw)
    (profile_raw : Option TkProfileRaw) (username : String)
    (pd od : Fin 14 → Fin 36) : PostRecord × OpRecord :=
  let post_id := generate_post_id_random pd
  let op_id := generate_op_id_random od
  let post : PostRecord :=
    { postId := some post_id
      title := none
      caption := pyOrS post_raw.content post_raw.title
      hashtags := some (.list (post_raw.hashtags.getD []))
      postType := some "video"
      postDate := post_raw.publish_date
      extractedDate := some now
      platform := some "tiktok"
      views := post_raw.views
      likes := post_raw.likes
      shares := post_raw.shares
      comments := post_raw.comments
      saves := post_raw.saves
      reposts := none
      engagementRate := tk_engagement_rate post_raw.views post_raw.likes
        post_raw.comments post_raw.shares
      url := some url
      language := tk_detect_language (pyOrS post_raw.content post_raw.title)
      opUsername := some username
      opId := some op_id
      extraction_status := none
      error_message := none }
  let op : OpRecord :=
    { username := some username
      opId := some op_id
      bio := profile_raw.bind (·.bio)
      followers := profile_raw.bind (·.followers)
      following := profile_raw.bind (·.following)
      postCount := profile_raw.bind (·.video_count)
      platform := some "tiktok" }
  (post, op)

/-- The basic data bag `TikTokExtractor._try_oembed` returns (either parsed
from the oembed response or its hard-coded failure dictionary). -/
structure TkOembed where
  title : Option String
  author : Option String
  author_id : Option String
  content : Option String
  publish_date : Option String
  views : Option Int
  likes : Option Int
  comments : Option Int
  shares : Option Int
  hashtags : Option (List String)
deriving DecidableEq, Repr

/-- The `username` computation of `TikTokExtractor._fallback_minimal`
(lines 429-435): URL capture first, then the oembed `author_id`, else
`Unknown`. -/
def tkFallbackUsername (url : String) (basic : TkOembed) : String :=
  match tiktokUsernameFromUrl url with
  | some u => u
  | none => if truthyS basic.author_id then basic.author_id.getD "" else "Unknown"

/-- Embedding of `TikTokExtractor._fallback_minimal`
(src/extractors/tiktok_extractor.py lines 417-472). -/
def tk_fallback_minimal (url now : String) (basic : TkOembed)
    (pd od : Fin 14 → Fin 36) : PostRecord × OpRecord :=
  let username := tkFallbackUsername url basic
  let post_id := generate_post_id_random pd
  let op_id := generate_op_id_random od
  let post : PostRecord :=
    { postId := some post_id
      title := none
      caption := pyOrS basic.content basic.title
      hashtags := some (.list (basic.hashtags.getD []))
      postType := some "video"
      postDate := some ((pyOrS basic.publish_date (some "N/A")).getD "")
      extractedDate := some now
      platform := some "tiktok"
      views := basic.views
      likes := basic.likes
      shares := basic.shares
      comments := basic.comments
      saves := none
      reposts := none
      engagementRate := none
      url := some url
      language := none
      opUsername := some username
      opId := some op_id
      extraction_status := none
      error_message := none }
  let op : OpRecord :=
    { username := some username
      opId := some op_id
      bio := none
      followers := none
      following := none
      postCount := none
      platform := some "tiktok" }
  (post, op)

/-- The environment of one `TikTokExtractor.extract_metadata` run: the post
subprocess succeeded (with an optional profile subprocess result), or it
failed and the oembed fallback was consulted, or an exception escaped. -/
inductive TkMetaEnv where
  | postOk (post_raw : TkPostRaw) (profile : Option TkProfileRaw)
  | fallbackPath (basic : TkOembed)
  | raised (msg : String)

/-- One `TikTokExtractor` run: its URL, timestamp, id draws and environment. -/
structure TkBehavior where
  url : String
  now : String
  env : TkMetaEnv
  postDraws : Fin 14 → Fin 36
  opDraws : Fin 14 → Fin 36

/-- Result of `TikTokExtractor.extract_metadata` (lines 132-198): the dual
`post`/`op` structure from one of the two builders, or a propagated
exception.  (Both builders emit a `post` entry, so the `'error' in result
and 'post' not in result` branch of `extract` is dead and not modelled.) -/
def tkExtractMetadata (b : TkBehavior) : PyResult (PostRecord × OpRecord) :=
  match b.env with
  | .postOk raw profile =>
    .ok (tk_build_phase2_structure b.url b.now raw profile
      (tkUsername b.url raw.author_id) b.postDraws b.opDraws)
  | .fallbackPath basic =>
    .ok (tk_fallback_minimal b.url b.now basic b.postDraws b.opDraws)
  | .raised m => .exn m

/-- Embedding of `TikTokExtractor.extract`
(src/extractors/tiktok_extractor.py lines 37-90): validate, delegate to
`extract_metadata`, mark `success` when no status is present, and convert
any exception into the error dictionary. -/
def tiktokExtract (b : TkBehavior) : PyResult (PostRecord × Option OpRecord) :=
  if ¬ tiktokValidate b.url then
    .ok (errorPostRecord "Invalid URL format for this platform" b.url "tiktok", none)
  else
    match tkExtractMetadata b with
    | .exn m => .ok (errorPostRecord m b.url "tiktok", none)
    | .ok (post, op) =>
      let post' := if post.extraction_status = none
        then { post with extraction_status := some "success" } else post
      .ok (post', some op)

/- ===================== FacebookExtractor: URL handling ===================== -/

/-- Plain substring occurrence (Python `in` on strings). -/
def subOcc (pat : List Char) : List Char → Bool
  | [] => pat = []
  | t@(_ :: r) => (t.take pat.length = pat) ∨ subOcc pat r

/-- Split at the first occurrence of a separator character: the part before
it and, when present, the part after it. -/
def splitFirst (sep : Char) (cs : List Char) : List Char × Option (List Char) :=
  let a := cs.takeWhile (fun c => c ≠ sep)
  match cs.dropWhile (fun c => c ≠ sep) with
  | [] => (a, none)
  | _ :: r => (a, some r)

/-- The five components `urllib.parse.urlparse` splits a URL into. -/
structure UrlParts where
  scheme : String
  netloc : String
  path : String
  query : String
  fragment : String
deriving DecidableEq, Repr

/-- `urllib.parse.urlparse` for the absolute `scheme://...` URLs (and
scheme-less strings, which it treats as pure paths) that this program
handles. -/
def pyUrlparse (url : String) : UrlParts :=
  let cs := url.data
  let (scheme, netloc, rest) :=
    if subOcc "://".data cs then
      let s := cs.takeWhile (fun c => c ≠ ':')
      let afterColon := (cs.dropWhile (fun c => c ≠ ':')).drop 3
      let n := afterColon.takeWhile (fun c => c ≠ '/' ∧ c ≠ '?' ∧ c ≠ '#')
      (String.mk (s.map asciiLower), String.mk n, afterColon.drop n.length)
    else ("", "", cs)
  let (noFrag, frag) := splitFirst '#' rest
  let (path, query) := splitFirst '?' noFrag
  { scheme := scheme
    netloc := netloc
    path := String.mk path
    query := String.mk (query.getD [])
    fragment := String.mk (frag.getD []) }

/-- `urllib.parse.urlunparse` on the shapes this program produces. -/
def pyUrlunparse (u : UrlParts) : String :=
  u.scheme ++ "://" ++ u.netloc ++ u.path ++
    (if u.query ≠ "" then "?" ++ u.query else "") ++
    (if u.fragment ≠ "" then "#" ++ u.fragment else "")

/-- Match of a regex that is a literal except that `.` matches any character
(how `re.search(r"/photo.php", path)` treats the dot). -/
def leadsWithDot : List Char → List Char → Bool
  | [], _ => true
  | _ :: _, [] => false
  | p :: ps, c :: cs => (p = '.' ∨ p = c) ∧ leadsWithDot ps cs

/-- `re.search` of a literal-with-dot pattern: does it match anywhere? -/
def searchLitDot (pat : List Char) : List Char → Bool
  | [] => leadsWithDot pat []
  | t@(_ :: r) => leadsWithDot pat t ∨ searchLitDot pat r

/-- `re.search(r"/\d+/", path)`: a slash, one or more digits, a slash. -/
def hasSlashDigitsSlash : List Char → Bool
  | [] => false
  | '/' :: r =>
    (countWhile Char.isDigit r ≥ 1 ∧ (r.drop (countWhile Char.isDigit r)).head? = some '/')
    ∨ hasSlashDigitsSlash r
  | _ :: r => hasSlashDigitsSlash r

/-- Embedding of `FacebookExtractor.validate_url`
(src/extractors/facebook_extractor.py lines 190-217): lowercases the URL,
requires a Facebook netloc, and accepts any of the post-path patterns. -/
def fb_validate_url (url : String) : Bool :=
  let parsed := pyUrlparse (pyLowerAscii url)
  let path := parsed.path.data
  (subOcc "facebook.com".data parsed.netloc.data ∨ subOcc "fb.com".data parsed.netloc.data)
  ∧ (subOcc "/posts/".data path
    ∨ searchLitDot "/photo.php".data path
    ∨ subOcc "/videos/".data path
    ∨ subOcc "/reel/".data path
    ∨ subOcc "/reels/".data path
    ∨ searchLitDot "/permalink.php".data path
    ∨ subOcc "/permalink/".data path
    ∨ searchLitDot "/story.php".data path
    ∨ subOcc "/share/v/".data path
    ∨ subOcc "/share/r/".data path
    ∨ hasSlashDigitsSlash path)

/-- Python `str.replace`: replace every non-overlapping occurrence, left to
right (fuel-driven; the fuel starts at the text length). -/
def strReplaceAux (pat sub : List Char) : Nat → List Char → List Char
  | 0, t => t
  | _ + 1, [] => []
  | fuel + 1, t@(c :: r) =>
    if t.take pat.length = pat ∧ pat ≠ [] then
      sub ++ strReplaceAux pat sub fuel (t.drop pat.length)
    else c :: strReplaceAux pat sub fuel r

def strReplace (s pat sub : String) : String :=
  String.mk (strReplaceAux pat.data sub.data s.data.length s.data)

/-- `urllib.parse.parse_qs` restricted to what `_normalize_url` consumes:
the first value of each of the keys `story_fbid` and `id`, in first-
occurrence order, skipping blank values. -/
def parseQsKept (query : List Char) : List (String × String) :=
  let pieces := (String.mk query).splitOn "&"
  let pairs := pieces.filterMap (fun p =>
    let k := p.data.takeWhile (fun c => c ≠ '=')
    match p.data.dropWhile (fun c => c ≠ '=') with
    | [] => none
    | _ :: v => if v = [] then none else some (String.mk k, String.mk v))
  let firstOf (k : String) : Option (String × String) :=
    (pairs.filter (fun kv => kv.1 = k)).head?
  let keysInOrder := (pairs.map (·.1)).eraseDups.filter
    (fun k => k = "story_fbid" ∨ k = "id")
  keysInOrder.filterMap firstOf

/-- `urllib.parse.urlencode` on the kept pairs (the values this program
keeps are plain ids, unchanged by percent-encoding). -/
def urlencodePairs (pairs : List (String × String)) : String :=
  String.intercalate "&" (pairs.map (fun kv => kv.1 ++ "=" ++ kv.2))

/-- Embedding of `FacebookExtractor._normalize_url`
(src/extractors/facebook_extractor.py lines 848-871). -/
def fb_normalize_url (url : String) : String :=
  let parsed := pyUrlparse url
  let netloc := strReplace (strReplace parsed.netloc "m.facebook.com" "www.facebook.com")
    "mbasic.facebook.com" "www.facebook.com"
  let parsed := { parsed with scheme := "https", netloc := netloc }
  if parsed.path = "/permalink.php" then
    let kept := parseQsKept parsed.query.data
    let query := if kept ≠ [] then urlencodePairs kept else parsed.query
    pyUrlunparse { parsed with query := query, fragment := "" }
  else if parsed.path = "/photo.php" ∨ parsed.path = "/story.php" then
    pyUrlunparse { parsed with fragment := "" }
  else
    pyUrlunparse { parsed with query := "", fragment := "" }

/-- One capture pattern of `_extract_target_id_from_url`: the literal lead-in
followed by a non-empty captured run of `cls` characters. -/
def litThenCapture (lit : List Char) (cls : Char → Bool) (url : List Char) : Option String :=
  pySearch (fun t => mLit lit (mPlusCap cls (fun cap _ => some (String.mk cap))) t) url

/-- `re.search(r"/(\d+)/?$", url)`: digits at the end of the URL, preceded by
a slash, optionally followed by one final slash. -/
def endSlashDigits (url : List Char) : Option String :=
  let r := url.reverse
  let r := match r with
    | '/' :: rest => rest
    | _ => r
  let ds := r.takeWhile Char.isDigit
  if ds ≠ [] ∧ (r.drop ds.length).head? = some '/' then some (String.mk ds.reverse)
  else none

/-- Embedding of `FacebookExtractor._extract_target_id_from_url`
(src/extractors/facebook_extractor.py lines 478-508): the eleven capture
patterns tried in order. -/
def fb_extract_target_id (url : String) : Option String :=
  let cs := url.data
  let alnum := fun (c : Char) => c.isAlphanum
  (litThenCapture "/share/v/".data alnum cs).orElse fun _ =>
  (litThenCapture "/share/r/".data alnum cs).orElse fun _ =>
  (litThenCapture "/reel/".data Char.isDigit cs).orElse fun _ =>
  (litThenCapture "/reels/".data Char.isDigit cs).orElse fun _ =>
  (litThenCapture "/posts/".data Char.isDigit cs).orElse fun _ =>
  ((litThenCapture "/posts/pfbid".data alnum cs).map (fun s => "pfbid" ++ s)).orElse fun _ =>
  (litThenCapture "/videos/".data Char.isDigit cs).orElse fun _ =>
  (litThenCapture "fbid=".data Char.isDigit cs).orElse fun _ =>
  ((litThenCapture "story_fbid=pfbid".data alnum cs).map (fun s => "pfbid" ++ s)).orElse fun _ =>
  (litThenCapture "story_fbid=".data Char.isDigit cs).orElse fun _ =>
  endSlashDigits cs

/- ===================== FacebookExtractor: cascade and extract ===================== -/

/-- A fetched document variant.  `html` is the raw response text; the other
fields model the results of the pure per-document parsers the loop body
calls through `_safe_call` (`_extract_author`, `_extract_content`,
`_extract_date`, `_extract_likes_targeted`, `_extract_comments_targeted`,
`_extract_shares_targeted`, `_determine_post_type`,
`_parse_og_title_metrics`) on this document for the run's target id —
`_safe_call` already maps internal failures to null, and
`_extract_likes_targeted` itself is embedded and verified separately. -/
structure FbDoc where
  html : String
  author : Option String
  content : Option String
  date : Option String
  likes : Option Int
  comments : Option Int
  shares : Option Int
  postType : Option String
  ogTitleMetrics : Option (Option Int × Option Int × Option String × Option String)
deriving DecidableEq, Repr

/-- Embedding of `FacebookExtractor._is_cookie_wall`
(src/extractors/facebook_extractor.py lines 122-128). -/
def fb_is_cookie_wall (html : String) : Bool :=
  let lower := (pyLowerAscii html).data
  subOcc (pyLowerAscii "Allow the use of cookies from Facebook on this browser").data lower
  ∨ subOcc (pyLowerAscii "These cookies are required to use Meta Products").data lower

/-- The accumulator of the variant loop of `FacebookExtractor.extract`
(src/extractors/facebook_extractor.py lines 300-309). -/
structure FbAccum where
  author : Option String
  content : Option String
  postDate : Option String
  likes : Option Int
  comments : Option Int
  shares : Option Int
  postType : Option String
  views : Option Int
  postTitle : Option String
deriving DecidableEq, Repr

/-- The empty accumulator (all loop variables start as `None`). -/
def fbAccumInit : FbAccum := ⟨none, none, none, none, none, none, none, none, none⟩

/-- One iteration of the variant loop (lines 311-375): each field is filled
from the current document only when its guard allows it. -/
def fbMergeStep (a : FbAccum) (d : FbDoc) : FbAccum :=
  let author :=
    if ¬ truthyS a.author ∨ a.author = some "Unknown User" then
      if truthyS d.author then d.author else a.author
    else a.author
  let content :=
    if ¬ truthyS a.content then
      if truthyS d.content then d.content else a.content
    else a.content
  let postDate :=
    if ¬ truthyS a.postDate then
      if truthyS d.date then d.date else a.postDate
    else a.postDate
  let likes := if a.likes = none then d.likes else a.likes
  let comments := if a.comments = none then d.comments else a.comments
  let shares := if a.shares = none then d.shares else a.shares
  let postType :=
    if ¬ truthyS a.postType then
      if truthyS d.postType then d.postType else a.postType
    else a.postType
  { a with author := author, content := content, postDate := postDate,
           likes := likes, comments := comments, shares := shares,
           postType := postType }

/-- The early-exit test of line 378: `content and (likes is not None or
comments is not None or shares is not None)`. -/
def fbSufficient (a : FbAccum) : Bool :=
  truthyS a.content ∧ (a.likes ≠ none ∨ a.comments ≠ none ∨ a.shares ≠ none)

/-- The variant loop (lines 311-380): merge each document in order and stop
as soon as the collected data is sufficient. -/
def fbCascadeLoop : List FbDoc → FbAccum → FbAccum
  | [], a => a
  | d :: ds, a =>
    let a' := fbMergeStep a d
    if fbSufficient a' then a' else fbCascadeLoop ds a'

/-- The og:title-metrics fallback applied after the loop to the first
fetched variant's HTML (lines 382-400). -/
def fbOgFallback (a : FbAccum) (og : Option (Option Int × Option Int × Option String × Option String)) :
    FbAccum :=
  match og with
  | none => a
  | some (ogViews, ogReactions, ogTitle, ogOwner) =>
    let views :=
      match ogViews with
      | none => a.views
      | some v => if a.views = none ∨ v > a.views.getD 0 then some v else a.views
    let likes :=
      match ogReactions with
      | none => a.likes
      | some v => if a.likes = none ∨ v > a.likes.getD 0 then some v else a.likes
    let postTitle :=
      if a.postTitle = none ∧ truthyS ogTitle then ogTitle else a.postTitle
    let author :=
      if (¬ truthyS a.author ∨ a.author = some "Unknown User") ∧ truthyS ogOwner
      then ogOwner else a.author
    { a with views := views, likes := likes, postTitle := postTitle, author := author }

/-- The whole aggregation of `FacebookExtractor.extract` over the fetched
variants: the loop, then the og:title fallback on the first variant's HTML
(skipped when that text is empty), then the author/post-type defaults of
lines 403-406. -/
def fbAggregate (docs : List FbDoc) : FbAccum :=
  let a := fbCascadeLoop docs fbAccumInit
  let a :=
    match docs.head? with
    | some d => if d.html ≠ "" then fbOgFallback a d.ogTitleMetrics else a
    | none => a
  let a := if ¬ truthyS a.author then { a with author := some "Unknown User" } else a
  if ¬ truthyS a.postType then { a with postType := some "post" } else a

/-- Positions-and-text of `re.findall(r"#\w+", content)`. -/
def findHashtagsAux : Nat → List Char → List String
  | 0, _ => []
  | _ + 1, [] => []
  | fuel + 1, '#' :: r =>
    let k := countWhile isWordChar r
    if k ≥ 1 then String.mk ('#' :: r.take k) :: findHashtagsAux fuel (r.drop k)
    else findHashtagsAux fuel r
  | fuel + 1, _ :: r => findHashtagsAux fuel r

/-- Embedding of `FacebookExtractor._extract_hashtags` (lines 1037-1041). -/
def fb_extract_hashtags (content : Option String) : Option String :=
  if ¬ truthyS content then none
  else
    let tags := findHashtagsAux (content.getD "").data.length (content.getD "").data
    if tags ≠ [] then some (String.intercalate ", " tags) else none

/-- Embedding of `FacebookExtractor._generate_post_id` (lines 1064-1077). -/
def fb_generate_post_id (url : String) : String :=
  let cs := url.data
  let hit :=
    (litThenCapture "/posts/".data Char.isDigit cs).orElse fun _ =>
    (litThenCapture "/videos/".data Char.isDigit cs).orElse fun _ =>
    (litThenCapture "fbid=".data Char.isDigit cs).orElse fun _ =>
    (litThenCapture "story_fbid=".data Char.isDigit cs).orElse fun _ =>
    endSlashDigits cs
  match hit with
  | some m => "fb_" ++ m
  | none => "fb_" ++ pyTakeStr (md5Hexdigest url) 12

/-- Embedding of `FacebookExtractor._generate_op_id` (lines 1079-1082). -/
def fb_generate_op_id (username : String) : String :=
  let clean := String.mk ((pyLowerAscii username).data.filter Char.isAlphanum)
  "fb_user_" ++ pyTakeStr (md5Hexdigest clean) 12

/-- The environment of one `FacebookExtractor.extract` run: the timestamp
and what each of the three variant fetches (`desktop`, `mobile`, `mbasic`)
would return (`none` models a failed `_get`). -/
structure FbEnv where
  now : String
  desktop : Option FbDoc
  mobile : Option FbDoc
  mbasic : Option FbDoc

/-- The variant list assembled in lines 269-290: the desktop document, then
the mobile and mbasic documents — the latter two only when rewriting the
host actually changed the normalized URL. -/
def fbVariants (nurl : String) (env : FbEnv) : List FbDoc :=
  (match env.desktop with | some d => [d] | none => []) ++
  (if strReplace nurl "www.facebook.com" "m.facebook.com" ≠ nurl then
    match env.mobile with | some d => [d] | none => []
   else []) ++
  (if strReplace nurl "www.facebook.com" "mbasic.facebook.com" ≠ nurl then
    match env.mbasic with | some d => [d] | none => []
   else [])

/-- Build the `(post_data, op_data)` pair of lines 408-454 from the final
accumulator. -/
def fbBuildRecords (nurl now : String) (a : FbAccum) : PostRecord × OpRecord :=
  let author := a.author.getD ""
  let post_id := fb_generate_post_id nurl
  let op_id := fb_generate_op_id author
  let engagement := (calculate_engagement_rate_from_dict a.views a.likes a.comments a.shares).1
  let post : PostRecord :=
    { postId := some post_id
      title := a.postTitle
      caption := if truthyS a.content then some (pyTakeStr (a.content.getD "") 5000) else none
      hashtags := (fb_extract_hashtags a.content).map .str
      postType := a.postType
      postDate := a.postDate
      extractedDate := some now
      platform := some "facebook"
      views := a.views
      likes := a.likes
      shares := a.shares
      comments := a.comments
      saves := none
      reposts := none
      engagementRate := engagement
      url := some nurl
      language := some "unknown"
      opUsername := a.author
      opId := some op_id
      extraction_status := none
      error_message := none }
  let op : OpRecord :=
    { username := a.author
      opId := some op_id
      bio := none
      followers := none
      following := none
      postCount := none
      platform := some "facebook" }
  (post, op)

/-- Embedding of `FacebookExtractor.extract`
(src/extractors/facebook_extractor.py lines 223-472).  Unlike
`BaseExtractor.extract`, the body is not wrapped in `try`, so its three
`raise` statements propagate to the caller. -/
def fbExtract (rawUrl : String) (env : FbEnv) : PyResult (PostRecord × OpRecord) :=
  let url := pyStrip rawUrl
  if ¬ fb_validate_url url then
    .exn "Invalid Facebook URL. Must be a Facebook post/photo/video/reel URL."
  else
    let nurl := fb_normalize_url url
    let wall := match env.desktop with
      | some d => fb_is_cookie_wall d.html
      | none => false
    if wall then
      .exn "Facebook cookie wall detected. Provide a valid FB_COOKIE_STRING."
    else
      let docs := fbVariants nurl env
      if docs = [] then
        .exn "Failed to fetch any HTML variants for this URL."
      else
        .ok (fbBuildRecords nurl env.now (fbAggregate docs))

/- ===================== claim-support definitions ===================== -/

/-- Did the call return normally (no exception propagated)? -/
def PyResult.isOk : PyResult α → Bool
  | .ok _ => true
  | .exn _ => false

/-- The `extraction_status` of a `BaseExtractor.extract` run's first element. -/
def statusOfRun (r : PyResult (ExtractedPost × Option OpRecord)) : Option String :=
  match r with
  | .ok (p, _) => p.status
  | .exn _ => none

/-- The formatted post record of a run, when there is one. -/
def runPost (r : PyResult (ExtractedPost × Option OpRecord)) : Option PostRecord :=
  match r with
  | .ok (.formatted p, _) => some p
  | _ => none

/-- The `extraction_status` of a `TikTokExtractor.extract` run's first element. -/
def statusOfPostRun (r : PyResult (PostRecord × Option OpRecord)) : Option String :=
  match r with
  | .ok (p, _) => p.extraction_status
  | .exn _ => none

/-- A fixed draw stream for the random id generator (every draw picks `a`). -/
def constDraws : Fin 14 → Fin 36 := fun _ => 0

/-- A lowercase hexadecimal character (codepoint of `0`-`9` or `a`-`f`). -/
def isLowerHexChar (c : Char) : Bool :=
  (48 ≤ c.toNat ∧ c.toNat ≤ 57) ∨ (97 ≤ c.toNat ∧ c.toNat ≤ 102)

/-- The sufficiency predicate as the specification sentence words it:
caption present and at least one of views/likes/comments non-null. -/
def fbSufficientSpec (a : FbAccum) : Bool :=
  truthyS a.content ∧ (a.views ≠ none ∨ a.likes ≠ none ∨ a.comments ≠ none)

/-- The variant loop as it would behave under the specification's wording of
the sufficiency predicate (for comparison with `fbCascadeLoop`). -/
def fbCascadeLoopSpec : List FbDoc → FbAccum → FbAccum
  | [], a => a
  | d :: ds, a =>
    let a' := fbMergeStep a d
    if fbSufficientSpec a' then a' else fbCascadeLoopSpec ds a'

/-- A document with two co-mingled metric blocks: one indexed by `"123"`
with 10 likes, one indexed by `"456"` with 20 likes. -/
def fbDocTwoBlocks : String :=
  "\x7b\"id\":\"123\",\"feedback\":\x7b\"likers\":\x7b\"count\":10\x7d\x7d\x7dxxxx\x7b\"id\":\"456\",\"feedback\":\x7b\"likers\":\x7b\"count\":20\x7d\x7d\x7d"

/-- A document whose global-first likers block says 10, while a 16-character
non-numeric identifier (`aaaaaaaaaaaaaaaa`, quoted) sits next to a feedback
block saying 20. -/
def fbDocOpaqueId : String :=
  "\x7b\"likers\":\x7b\"count\":10\x7d\x7d,\"x\":\"aaaaaaaaaaaaaaaa\",\"feedback\":\x7b\"likers\":\x7b\"count\":20\x7d\x7d"

/-- A run in which validation and metadata extraction succeed but the
metadata bag is empty: normalization proceeds with every key field null. -/
def c9behavior : SubBehavior :=
  ⟨"reddit", "https://redd.it/x", "t0", .ok true, .ok emptyRawMeta, constDraws, constDraws⟩

/-- A variant that yields a caption and 5 likes, whose HTML carries an
og:title metrics block reporting 10 reactions. -/
def c4docOg : FbDoc :=
  ⟨"h", none, some "cap", none, some 5, none, none, none, some (none, some 10, none, none)⟩

/-- Strategy A of the specification's cascade-merge example: caption `x`. -/
def c4docA : FbDoc := ⟨"h", none, some "x", none, none, none, none, none, none⟩

/-- Strategy B of the example: caption `y` and 5 likes. -/
def c4docB : FbDoc := ⟨"h", none, some "y", none, some 5, none, none, none, none⟩

/-- A variant yielding a caption and a share count only. -/
def c5doc1 : FbDoc := ⟨"h", none, some "c", none, none, none, some 5, none, none⟩

/-- A later variant that would yield 7 likes. -/
def c5doc2 : FbDoc := ⟨"h", none, some "c2", none, some 7, none, none, none, none⟩

/-- An environment in which no variant fetch returns anything. -/
def fbEnvEmpty : FbEnv := ⟨"t0", none, none, none⟩

/- ===================== theorems ===================== -/

/-- Helper: on a positive denominator the integer-only rounding agrees with
the rational round-half-to-even. -/
theorem roundHalfEvenFrac_eq_pos (num den : ℤ) (hd : 0 < den) :
    roundHalfEvenFrac num den = roundHalfEven ((num : ℚ) / den) := by
  have hdQ : (0 : ℚ) < (den : ℚ) := by exact_mod_cast hd
  have hsum : den * (num / den) + num % den = num := Int.ediv_add_emod num den
  have hr0 : 0 ≤ num % den := Int.emod_nonneg num (by omega)
  have hrlt : num % den < den := Int.emod_lt_of_pos num hd
  have hx : (num : ℚ) / den = ((num / den : ℤ) : ℚ) + ((num % den : ℤ) : ℚ) / den := by
    field_simp
    exact_mod_cast (by linarith [hsum] : num = num / den * den + num % den)
  have hfloor : ⌊(num : ℚ) / den⌋ = num / den := by
    rw [hx, Int.floor_int_add]
    have h0 : ⌊((num % den : ℤ) : ℚ) / den⌋ = 0 := by
      rw [Int.floor_eq_zero_iff]
      refine ⟨div_nonneg (by exact_mod_cast hr0) (le_of_lt hdQ), ?_⟩
      rw [div_lt_one hdQ]
      exact_mod_cast hrlt
    rw [h0, add_zero]
  have hfrac : (num : ℚ) / den - ((num / den : ℤ) : ℚ) = ((num % den : ℤ) : ℚ) / den := by
    rw [hx]; ring
  have h1 : (((num % den : ℤ) : ℚ) / den < 1/2) ↔ (2 * (num % den) < den) := by
    rw [div_lt_div_iff₀ hdQ (by norm_num : (0:ℚ) < 2)]
    constructor
    · intro h
      have : ((2 * (num % den) : ℤ) : ℚ) < ((den : ℤ) : ℚ) := by push_cast; linarith
      exact_mod_cast this
    · intro h
      have : ((2 * (num % den) : ℤ) : ℚ) < ((den : ℤ) : ℚ) := by exact_mod_cast h
      push_cast at this
      linarith
  have h2 : (1/2 < ((num % den : ℤ) : ℚ) / den) ↔ (den < 2 * (num % den)) := by
    rw [div_lt_div_iff₀ (by norm_num : (0:ℚ) < 2) hdQ]
    constructor
    · intro h
      have : ((den : ℤ) : ℚ) < ((2 * (num % den) : ℤ) : ℚ) := by push_cast; linarith
      exact_mod_cast this
    · intro h
      have : ((den : ℤ) : ℚ) < ((2 * (num % den) : ℤ) : ℚ) := by exact_mod_cast h
      push_cast at this
      linarith
  simp only [roundHalfEvenFrac, roundHalfEven, if_neg (show ¬ den < 0 by omega),
    hfloor, hfrac, h1, h2]

/-- Helper: the integer-only rounding agrees with the rational
round-half-to-even for every non-zero denominator. -/
theorem roundHalfEvenFrac_eq (num den : ℤ) (h : den ≠ 0) :
    roundHalfEvenFrac num den = roundHalfEven ((num : ℚ) / den) := by
  rcases lt_or_gt_of_ne h with hneg | hpos
  · have hflip : roundHalfEvenFrac num den = roundHalfEvenFrac (-num) (-den) := by
      simp only [roundHalfEvenFrac, if_pos hneg, if_neg (show ¬ -den < 0 by omega),
        neg_neg]
    rw [hflip, roundHalfEvenFrac_eq_pos (-num) (-den) (by omega)]
    congr 1
    push_cast
    rw [neg_div_neg_eq]
  · exact roundHalfEvenFrac_eq_pos num den hpos

/-- Helper: `pyRound2Rat` computes `pyRound2` of the fraction. -/
theorem pyRound2Rat_eq (num den : ℤ) (h : den ≠ 0) :
    pyRound2Rat num den = pyRound2 ((num : ℚ) / den) := by
  unfold pyRound2Rat pyRound2
  rw [Rat.mkRat_eq_divInt, Rat.divInt_eq_div, roundHalfEvenFrac_eq (100 * num) den h]
  congr 2
  push_cast
  ring

/-- C2: for all integer-or-null inputs, the engagement-rate computation
returns `(rate, missing)` where `missing` marks exactly the null inputs
(computed unconditionally), and `rate` is null when `views` is null or zero,
null when `likes`, `comments` and `shares` are all null, and otherwise equals
`round(100 * (likes+comments+shares) / views, 2)` with null engagement inputs
treated as `0`; in particular `views=100, likes=10, comments=5, shares=5`
gives rate `20.0` with all missing flags false. -/
theorem C2_engagement_rate (v l c s : Option Int) :
    calculate_engagement_rate_from_dict v l c s =
      ((if v = none ∨ v = some 0 then none
        else if l = none ∧ c = none ∧ s = none then none
        else some (pyRound2 (100 * ((l.getD 0 + c.getD 0 + s.getD 0 : Int) : ℚ) /
          ((v.getD 0 : Int) : ℚ)))),
       (⟨decide (v = none), decide (l = none), decide (c = none), decide (s = none)⟩ :
        MissingFlags)) ∧
    calculate_engagement_rate_from_dict (some 100) (some 10) (some 5) (some 5) =
      (some 20, ⟨false, false, false, false⟩) := by
  constructor
  · by_cases h1 : v = none ∨ v = some 0
    · simp [calculate_engagement_rate_from_dict, h1]
    · by_cases h2 : l = none ∧ c = none ∧ s = none
      · simp [calculate_engagement_rate_from_dict, h1, h2]
      · have hv : v.getD 0 ≠ 0 := by
          rcases v with _ | k
          · exact absurd (Or.inl rfl) h1
          · simp only [Option.getD_some]
            intro hk
            exact h1 (Or.inr (by rw [hk]))
        simp only [calculate_engagement_rate_from_dict, h1, h2, if_false]
        refine Prod.ext ?_ rfl
        simp only [if_neg h1, if_neg h2, Option.some.injEq]
        rw [pyRound2Rat_eq _ _ hv]
        congr 1
        push_cast
        ring
  · decide

/-- C7 counterexample: on the whitespace-only input `" "` the code returns
null, while the claimed rule (ASCII ratio `1 > 0.8`) would return `en`. -/
theorem C7_counterexample :
    detect_language " " = none ∧ detect_language_spec " " = some "en" := by
  constructor
  · decide
  · decide

/-- C7 (amended): `detect_language` returns null when the text is empty (or
not a string) and also when its first-200-character sample is entirely
whitespace; on every other input it returns `en` when the ASCII ratio of the
sample exceeds 0.8 and `other` otherwise. -/
theorem C7_detect_language (t : String) :
    detect_language t = detect_language_amended t := by
  unfold detect_language detect_language_amended detect_language_spec
  by_cases h : t = "" <;> simp [h, List.countP_eq_length_filter]

/-- Helper: hex digits of nibbles are lowercase hex characters. -/
theorem hexByte_lower (b : Nat) : (hexByte b).all isLowerHexChar = true := by
  have key : ∀ m < 16, isLowerHexChar (hexDigit m) = true := by decide
  simp only [hexByte, List.all_cons, List.all_nil, Bool.and_true, Bool.and_eq_true]
  exact ⟨key _ (Nat.mod_lt _ (by norm_num)), key _ (Nat.mod_lt _ (by norm_num))⟩

/-- Helper: every character of a hex rendering is a lowercase hex character. -/
theorem hexRender_lower (l : List Nat) :
    ((l.map hexByte).flatten.all isLowerHexChar) = true := by
  induction l with
  | nil => rfl
  | cons b bs ih =>
    simp only [List.map_cons, List.flatten_cons, List.all_append, ih,
      hexByte_lower, Bool.and_true]

/-- Helper: every character of a SHA-256 hexdigest is lowercase hex. -/
theorem sha256Hexdigest_lower (seed : String) :
    (sha256Hexdigest seed).data.all isLowerHexChar = true := by
  unfold sha256Hexdigest
  exact hexRender_lower _

/-- Helper: ASCII lowercasing fixes lowercase hex characters. -/
theorem asciiLower_fix {c : Char} (h : isLowerHexChar c = true) : asciiLower c = c := by
  simp only [isLowerHexChar, decide_eq_true_eq] at h
  unfold asciiLower
  rw [if_neg]
  omega

/-- Helper: lowercasing the truncated hexdigest changes nothing. -/
theorem lower_take_digest (seed : String) (n : Nat) :
    pyLowerAscii (pyTakeStr (sha256Hexdigest seed) n) =
      pyTakeStr (sha256Hexdigest seed) n := by
  unfold pyLowerAscii pyTakeStr
  have hall := sha256Hexdigest_lower seed
  congr 1
  refine (List.map_congr_left ?_).trans (List.map_id _)
  intro c hc
  have hmem : c ∈ (sha256Hexdigest seed).data := List.take_subset _ _ hc
  have := (List.all_eq_true.mp hall) c hmem
  exact asciiLower_fix this

/-- Helper: the 36-symbol id alphabet has no repeated character. -/
theorem idAlphabet_nodup : idAlphabet.Nodup := by decide

/-- Helper: the 36-symbol id alphabet is injectively indexed. -/
theorem idChar_inj : Function.Injective idChar := by
  intro i j h
  have hlen : idAlphabet.length = 36 := rfl
  have hi : (i : ℕ) < idAlphabet.length := by rw [hlen]; exact i.isLt
  have hj : (j : ℕ) < idAlphabet.length := by rw [hlen]; exact j.isLt
  have hij : idAlphabet[(i : ℕ)] = idAlphabet[(j : ℕ)] := by
    have h1 : idChar i = idAlphabet[(i : ℕ)] := by
      simp [idChar, List.getD_eq_getElem?_getD, List.getElem?_eq_getElem hi]
    have h2 : idChar j = idAlphabet[(j : ℕ)] := by
      simp [idChar, List.getD_eq_getElem?_getD, List.getElem?_eq_getElem hj]
    rw [← h1, ← h2, h]
  have := (idAlphabet_nodup.getElem_inj_iff).mp hij
  exact Fin.ext this

/-- C8: seeded id generation is the prefix, an underscore and the (already
lowercase-hex) first 14 hexdigest characters of SHA-256 of the seed, hence a
pure function of the seed (two calls with the same seed agree); unseeded
generation is injective in the 14 random draws, so the fraction of draw
pairs giving distinct ids is exactly `1 - 1/36^14`. -/
theorem C8_generate_id :
    (∀ seed : String,
      generate_post_id_seeded seed = "po_" ++ pyTakeStr (sha256Hexdigest seed) 14 ∧
      generate_op_id_seeded seed = "op_" ++ pyTakeStr (sha256Hexdigest seed) 14 ∧
      (sha256Hexdigest seed).data.all isLowerHexChar = true) ∧
    (∀ d d' : Fin 14 → Fin 36,
      generate_post_id_random d = generate_post_id_random d' ↔ d = d') ∧
    ((Fintype.card {p : (Fin 14 → Fin 36) × (Fin 14 → Fin 36) //
        generate_post_id_random p.1 ≠ generate_post_id_random p.2} : ℚ) /
      (Fintype.card ((Fin 14 → Fin 36) × (Fin 14 → Fin 36)) : ℚ)
      = 1 - 1 / 36 ^ 14) := by
  have hinj : ∀ d d' : Fin 14 → Fin 36,
      generate_post_id_random d = generate_post_id_random d' ↔ d = d' := by
    intro d d'
    constructor
    · intro h
      unfold generate_post_id_random at h
      have hdata := congrArg String.data h
      simp only [String.data_append] at hdata
      have hlist := List.append_cancel_left hdata
      have hmk : (List.ofFn d).map idChar = (List.ofFn d').map idChar := by
        simpa using hlist
      have hofn := List.map_injective_iff.mpr idChar_inj hmk
      exact List.ofFn_inj.mp hofn
    · intro h
      rw [h]
  refine ⟨?_, hinj, ?_⟩
  · intro seed
    refine ⟨?_, ?_, sha256Hexdigest_lower seed⟩
    · unfold generate_post_id_seeded
      rw [lower_take_digest]
    · unfold generate_op_id_seeded
      rw [lower_take_digest]
  · have hinj' : ∀ a b : Fin 14 → Fin 36,
        generate_post_id_random a = generate_post_id_random b → a = b :=
      fun a b h => (hinj a b).mp h
    have e : {p : (Fin 14 → Fin 36) × (Fin 14 → Fin 36) //
        generate_post_id_random p.1 = generate_post_id_random p.2} ≃ (Fin 14 → Fin 36) :=
      { toFun := fun x => x.1.1
        invFun := fun d => ⟨(d, d), rfl⟩
        left_inv := by
          rintro ⟨⟨a, b⟩, h⟩
          have hab : a = b := hinj' a b h
          subst hab
          rfl
        right_inv := fun d => rfl }
    have hfun : Fintype.card (Fin 14 → Fin 36) = 36 ^ 14 := by
      rw [Fintype.card_fun]
      norm_num
    have heq : Fintype.card {p : (Fin 14 → Fin 36) × (Fin 14 → Fin 36) //
        generate_post_id_random p.1 = generate_post_id_random p.2} = 36 ^ 14 := by
      rw [Fintype.card_congr e, hfun]
    have htotal : Fintype.card ((Fin 14 → Fin 36) × (Fin 14 → Fin 36)) = 36 ^ 28 := by
      rw [Fintype.card_prod, hfun, ← pow_add]
    have hcompl : Fintype.card {p : (Fin 14 → Fin 36) × (Fin 14 → Fin 36) //
        generate_post_id_random p.1 ≠ generate_post_id_random p.2}
        = 36 ^ 28 - 36 ^ 14 := by
      rw [Fintype.card_subtype_compl, heq, htotal]
    rw [hcompl, htotal, Nat.cast_sub (Nat.pow_le_pow_right (by norm_num) (by norm_num))]
    simp only [Nat.cast_pow, Nat.cast_ofNat]
    have hq : ((36 : ℚ) ^ 14) / 36 ^ 28 = 1 / 36 ^ 14 := by
      rw [show (28 : ℕ) = 14 + 14 by norm_num, pow_add]
      rw [div_mul_eq_div_div, div_self (by positivity : ((36 : ℚ) ^ 14) ≠ 0)]
    rw [sub_div, div_self (by positivity : ((36 : ℚ) ^ 28) ≠ 0), hq]

/-- Helper: appending to a non-empty string never yields the empty string. -/
theorem str_append_ne_empty (a b : String) (h : a ≠ "") : a ++ b ≠ "" := by
  intro hc
  apply h
  have hd := congrArg String.data hc
  simp only [String.data_append] at hd
  have hnil : a.data = [] := (List.append_eq_nil.mp hd).1
  cases a
  exact congrArg String.mk hnil

/-- C1 counterexample: on a URL that fails Facebook validation,
`FacebookExtractor.extract` propagates an exception to its caller instead of
returning a `failed` result. -/
theorem C1_counterexample :
    fbExtract "https://example.com/posts/123" fbEnvEmpty =
      .exn "Invalid Facebook URL. Must be a Facebook post/photo/video/reel URL." := by
  decide

/-- C1 (amended): `BaseExtractor.extract` (used by the Reddit extractor) and
`TikTokExtractor.extract` never propagate an exception — any internal
exception, in validation or metadata extraction, is caught at the pipeline
boundary and converted into a returned record with status `failed` and the
captured message.  `FacebookExtractor.extract`, which overrides the guarded
pipeline, raises instead (see the counterexample). -/
theorem C1_extract_never_raises :
    (∀ b : SubBehavior, (baseExtract b).isOk = true) ∧
    (∀ tb : TkBehavior, (tiktokExtract tb).isOk = true) ∧
    (∀ (b : SubBehavior) (m : String), b.validate = .exn m →
      baseExtract b = .ok (.formatted (errorPostRecord m b.url b.platform), none)) ∧
    (∀ (b : SubBehavior) (m : String), b.validate = .ok true → b.extractMetadata = .exn m →
      baseExtract b = .ok (.formatted (errorPostRecord m b.url b.platform), none)) := by
  refine ⟨?_, ?_, ?_, ?_⟩
  · intro b
    unfold baseExtract
    split
    all_goals try rfl
    split
    all_goals try rfl
    split
    all_goals rfl
  · intro tb
    unfold tiktokExtract
    split
    all_goals try rfl
    split
    all_goals rfl
  · intro b m h
    unfold baseExtract
    rw [h]
  · intro b m h1 h2
    unfold baseExtract
    rw [h1, h2]

/-- C1 witness: a concrete behavior whose metadata extraction raises is
converted into the error record. -/
theorem C1_witness :
    baseExtract ⟨"reddit", "u", "t", .ok true, .exn "boom", constDraws, constDraws⟩ =
      .ok (.formatted (errorPostRecord "boom" "u" "reddit"), none) :=
  C1_extract_never_raises.2.2.2 ⟨"reddit", "u", "t", .ok true, .exn "boom",
    constDraws, constDraws⟩ "boom" rfl rfl

/-- C9 counterexample: a run whose validation and metadata extraction both
succeed while every key field stays null is reported as `success` — not as
the claimed reachable `partial` status. -/
theorem C9_counterexample :
    statusOfRun (baseExtract c9behavior) = some "success" ∧
    statusOfRun (baseExtract c9behavior) ≠ some "partial" ∧
    (runPost (baseExtract c9behavior)).map (·.views) = some none ∧
    (runPost (baseExtract c9behavior)).map (·.likes) = some none ∧
    (runPost (baseExtract c9behavior)).map (·.comments) = some none ∧
    (runPost (baseExtract c9behavior)).map (·.caption) = some (some "") := by
  decide

/-- C9 (amended): `src/app.py` line 608 tests for a `partial` status, but no
extractor produces one — every run of the guarded pipeline (and of the
TikTok override) terminates with status `success` or `failed`, never
`partial`. -/
theorem C9_status_never_partial :
    (∀ b : SubBehavior, statusOfRun (baseExtract b) = some "success" ∨
      statusOfRun (baseExtract b) = some "failed") ∧
    (∀ tb : TkBehavior, statusOfPostRun (tiktokExtract tb) = some "success" ∨
      statusOfPostRun (tiktokExtract tb) = some "failed") := by
  constructor
  · intro b
    unfold baseExtract
    split
    · right; rfl
    · right; rfl
    · split
      · right; rfl
      · split
        · rename_i hfail
          right
          exact hfail
        · left; rfl
  · intro tb
    obtain ⟨url, now, env, pd, od⟩ := tb
    cases env
    · unfold tiktokExtract tkExtractMetadata
      split
      · right; rfl
      · left; rfl
    · unfold tiktokExtract tkExtractMetadata
      split
      · right; rfl
      · left; rfl
    · unfold tiktokExtract tkExtractMetadata
      split
      · right; rfl
      · right; rfl

/-- C10: whenever the returned post record carries `extraction_status`
`failed`, the second tuple element is the empty dictionary — the caller
receives no OP fields at all. -/
theorem C10_failed_empty_op :
    (∀ (b : SubBehavior) (post : ExtractedPost) (op : Option OpRecord),
      baseExtract b = .ok (post, op) → post.status = some "failed" → op = none) ∧
    (∀ (tb : TkBehavior) (post : PostRecord) (op : Option OpRecord),
      tiktokExtract tb = .ok (post, op) → post.extraction_status = some "failed" →
      op = none) := by
  constructor
  · intro b post op h hfail
    unfold baseExtract at h
    split at h
    · obtain ⟨h1, h2⟩ := Prod.mk.injEq .. ▸ (PyResult.ok.injEq .. ▸ h)
      exact h2.symm
    · obtain ⟨h1, h2⟩ := Prod.mk.injEq .. ▸ (PyResult.ok.injEq .. ▸ h)
      exact h2.symm
    · split at h
      · obtain ⟨h1, h2⟩ := Prod.mk.injEq .. ▸ (PyResult.ok.injEq .. ▸ h)
        exact h2.symm
      · split at h
        · obtain ⟨h1, h2⟩ := Prod.mk.injEq .. ▸ (PyResult.ok.injEq .. ▸ h)
          exact h2.symm
        · obtain ⟨h1, h2⟩ := Prod.mk.injEq .. ▸ (PyResult.ok.injEq .. ▸ h)
          rw [← h1] at hfail
          simp [ExtractedPost.status] at hfail
  · intro tb post op h hfail
    obtain ⟨url, now, env, pd, od⟩ := tb
    cases env
    all_goals
      unfold tiktokExtract tkExtractMetadata at h
      split at h
    · obtain ⟨h1, h2⟩ := Prod.mk.injEq .. ▸ (PyResult.ok.injEq .. ▸ h)
      exact h2.symm
    · obtain ⟨h1, h2⟩ := Prod.mk.injEq .. ▸ (PyResult.ok.injEq .. ▸ h)
      rw [← h1] at hfail
      simp at hfail
    · obtain ⟨h1, h2⟩ := Prod.mk.injEq .. ▸ (PyResult.ok.injEq .. ▸ h)
      exact h2.symm
    · obtain ⟨h1, h2⟩ := Prod.mk.injEq .. ▸ (PyResult.ok.injEq .. ▸ h)
      rw [← h1] at hfail
      simp at hfail
    · obtain ⟨h1, h2⟩ := Prod.mk.injEq .. ▸ (PyResult.ok.injEq .. ▸ h)
      exact h2.symm
    · obtain ⟨h1, h2⟩ := Prod.mk.injEq .. ▸ (PyResult.ok.injEq .. ▸ h)
      exact h2.symm

/-- C10 witness: the implication applied to a concrete failed run. -/
theorem C10_witness : (none : Option OpRecord) = none :=
  C10_failed_empty_op.1 ⟨"reddit", "u", "t", .ok false, .ok emptyRawMeta, constDraws, constDraws⟩
    (.formatted (errorPostRecord "Invalid URL format for this platform" "u" "reddit")) none
    (by decide) (by decide)

/-- C6: for every Reddit run of the guarded pipeline, a result with
`extraction_status` `failed` carries only the four error keys — every
engagement and content field of the returned record is null — and a present,
non-empty `error_message`; in particular a URL failing platform validation
produces exactly the invalid-URL error record with an empty OP dictionary. -/
theorem C6_failed_all_null :
    (∀ (url now : String) (outcome : RedditOutcome) (pd od : Fin 14 → Fin 36)
       (post : ExtractedPost) (op : Option OpRecord),
      baseExtract (redditBehavior url now outcome pd od) = .ok (post, op) →
      post.status = some "failed" →
      ∃ p : PostRecord, post = .formatted p ∧
        p.views = none ∧ p.likes = none ∧ p.shares = none ∧ p.comments = none ∧
        p.saves = none ∧ p.reposts = none ∧ p.engagementRate = none ∧
        p.caption = none ∧ p.title = none ∧ p.hashtags = none ∧
        p.error_message.isSome = true ∧ p.error_message ≠ some "") ∧
    (∀ (url now : String) (outcome : RedditOutcome) (pd od : Fin 14 → Fin 36),
      redditValidate url = false →
      baseExtract (redditBehavior url now outcome pd od) =
        .ok (.formatted (errorPostRecord "Invalid URL format for this platform" url "reddit"),
          none)) := by
  have herr : ∀ (msg url platform : String), msg ≠ "" →
      ∃ p : PostRecord, ExtractedPost.formatted (errorPostRecord msg url platform) = .formatted p ∧
        p.views = none ∧ p.likes = none ∧ p.shares = none ∧ p.comments = none ∧
        p.saves = none ∧ p.reposts = none ∧ p.engagementRate = none ∧
        p.caption = none ∧ p.title = none ∧ p.hashtags = none ∧
        p.error_message.isSome = true ∧ p.error_message ≠ some "" := by
    intro msg url platform hmsg
    refine ⟨errorPostRecord msg url platform, rfl, rfl, rfl, rfl, rfl, rfl, rfl, rfl,
      rfl, rfl, rfl, rfl, ?_⟩
    simp only [errorPostRecord, Option.some.injEq, ne_eq]
    exact fun hc => hmsg hc
  constructor
  · intro url now outcome pd od post op h hfail
    unfold baseExtract redditBehavior at h
    rcases hval : redditValidate url with _ | _
    · rw [hval] at h
      obtain ⟨h1, h2⟩ := Prod.mk.injEq .. ▸ (PyResult.ok.injEq .. ▸ h)
      rw [← h1]
      exact herr _ url "reddit" (by decide)
    · rw [hval] at h
      cases outcome with
      | success m =>
        simp only at h
        split at h
        · rename_i hsf
          simp at hsf
        · obtain ⟨h1, h2⟩ := Prod.mk.injEq .. ▸ (PyResult.ok.injEq .. ▸ h)
          rw [← h1] at hfail
          simp [ExtractedPost.status] at hfail
      | failure f =>
        simp only at h
        obtain ⟨h1, h2⟩ := Prod.mk.injEq .. ▸ (PyResult.ok.injEq .. ▸ h)
        rw [← h1]
        apply herr _ url "reddit"
        cases f with
        | timeout => decide
        | connectionError => decide
        | keyErr s => exact str_append_ne_empty "Unexpected Reddit JSON structure: " s (by decide)
        | other s => exact str_append_ne_empty "Failed to extract Reddit metadata: " s (by decide)
  · intro url now outcome pd od hval
    unfold baseExtract redditBehavior
    rw [hval]

/-- C6 witness: the invariants at a concrete failing Reddit run (a valid
URL whose fetch times out) and a concrete invalid-URL run. -/
theorem C6_witness :
    (∃ p : PostRecord,
      ExtractedPost.formatted (errorPostRecord
          "Request timeout - Reddit took too long to respond" "https://redd.it/x" "reddit")
        = .formatted p ∧
      p.views = none ∧ p.likes = none ∧ p.shares = none ∧ p.comments = none ∧
      p.saves = none ∧ p.reposts = none ∧ p.engagementRate = none ∧
      p.caption = none ∧ p.title = none ∧ p.hashtags = none ∧
      p.error_message.isSome = true ∧ p.error_message ≠ some "") ∧
    baseExtract (redditBehavior "u" "t" (.failure .timeout) constDraws constDraws) =
      .ok (.formatted (errorPostRecord "Invalid URL format for this platform" "u" "reddit"),
        none) := by
  constructor
  · exact C6_failed_all_null.1 "https://redd.it/x" "t" (.failure .timeout) constDraws constDraws
      (.formatted (errorPostRecord "Request timeout - Reddit took too long to respond"
        "https://redd.it/x" "reddit")) none (by decide) (by decide)
  · exact C6_failed_all_null.2 "u" "t" (.failure .timeout) constDraws constDraws (by decide)

/-- Helper: one merge step never overwrites an already-populated field (for
the author field, provided it does not hold the replaceable placeholder). -/
theorem fbMergeStep_preserves (a : FbAccum) (d : FbDoc) :
    (a.likes ≠ none → (fbMergeStep a d).likes = a.likes) ∧
    (a.comments ≠ none → (fbMergeStep a d).comments = a.comments) ∧
    (a.shares ≠ none → (fbMergeStep a d).shares = a.shares) ∧
    (truthyS a.content = true → (fbMergeStep a d).content = a.content) ∧
    (truthyS a.postDate = true → (fbMergeStep a d).postDate = a.postDate) ∧
    (truthyS a.postType = true → (fbMergeStep a d).postType = a.postType) ∧
    (truthyS a.author = true → a.author ≠ some "Unknown User" →
      (fbMergeStep a d).author = a.author) := by
  refine ⟨?_, ?_, ?_, ?_, ?_, ?_, ?_⟩
  · intro h
    simp only [fbMergeStep, if_neg h]
  · intro h
    simp only [fbMergeStep, if_neg h]
  · intro h
    simp only [fbMergeStep, if_neg h]
  · intro h
    simp only [fbMergeStep]
    rw [if_neg]
    simp [h]
  · intro h
    simp only [fbMergeStep]
    rw [if_neg]
    simp [h]
  · intro h
    simp only [fbMergeStep]
    rw [if_neg]
    simp [h]
  · intro h1 h2
    simp only [fbMergeStep]
    rw [if_neg]
    simp [h1, h2]

/-- C4 counterexample: a field populated by an earlier strategy is
overwritten by the og:title fallback — the variant loop first collects 5
likes, yet the aggregate reports the larger og:title reactions value 10. -/
theorem C4_counterexample :
    (fbCascadeLoop [c4docOg] fbAccumInit).likes = some 5 ∧
    c4docOg.likes = some 5 ∧
    (fbAggregate [c4docOg]).likes = some 10 := by
  decide

/-- C4 (amended): within the variant loop merging is first-writer-wins —
an already-populated likes/comments/shares value and a truthy
content/date/post-type value are never overwritten, and a truthy author
value other than the replaceable placeholder `Unknown User` is never
overwritten; only null/missing fields are filled.  (The post-loop og:title
fallback may still overwrite likes or views with a strictly larger og
value — see the counterexample.)  The specification's cascade-merge example
holds: strategy A yielding caption `x` then strategy B yielding caption `y`
and 5 likes produces caption `x` with 5 likes. -/
theorem C4_first_writer_wins :
    (∀ (ds : List FbDoc) (a : FbAccum),
      (a.likes ≠ none → (fbCascadeLoop ds a).likes = a.likes) ∧
      (a.comments ≠ none → (fbCascadeLoop ds a).comments = a.comments) ∧
      (a.shares ≠ none → (fbCascadeLoop ds a).shares = a.shares) ∧
      (truthyS a.content = true → (fbCascadeLoop ds a).content = a.content) ∧
      (truthyS a.postDate = true → (fbCascadeLoop ds a).postDate = a.postDate) ∧
      (truthyS a.postType = true → (fbCascadeLoop ds a).postType = a.postType) ∧
      (truthyS a.author = true → a.author ≠ some "Unknown User" →
        (fbCascadeLoop ds a).author = a.author)) ∧
    ((fbAggregate [c4docA, c4docB]).content = some "x" ∧
     (fbAggregate [c4docA, c4docB]).likes = some 5) := by
  constructor
  · intro ds
    induction ds with
    | nil =>
      intro a
      exact ⟨fun _ => rfl, fun _ => rfl, fun _ => rfl, fun _ => rfl, fun _ => rfl,
        fun _ => rfl, fun _ _ => rfl⟩
    | cons d ds ih =>
      intro a
      obtain ⟨sl, sc, ss, sct, sd, st, sa⟩ := fbMergeStep_preserves a d
      obtain ⟨il, ic, is', ict, id', it, ia⟩ := ih (fbMergeStep a d)
      by_cases hs : fbSufficient (fbMergeStep a d) = true
      · simp only [fbCascadeLoop, hs, if_true]
        exact ⟨sl, sc, ss, sct, sd, st, sa⟩
      · simp only [fbCascadeLoop, hs, if_false, Bool.false_eq_true]
        refine ⟨?_, ?_, ?_, ?_, ?_, ?_, ?_⟩
        · intro h
          rw [il (by rw [sl h]; exact h), sl h]
        · intro h
          rw [ic (by rw [sc h]; exact h), sc h]
        · intro h
          rw [is' (by rw [ss h]; exact h), ss h]
        · intro h
          rw [ict (by rw [sct h]; exact h), sct h]
        · intro h
          rw [id' (by rw [sd h]; exact h), sd h]
        · intro h
          rw [it (by rw [st h]; exact h), st h]
        · intro h1 h2
          rw [ia (by rw [sa h1 h2]; exact h1) (by rw [sa h1 h2]; exact h2), sa h1 h2]
  · exact ⟨by decide, by decide⟩

/-- C4 witness: first-writer-wins at a concrete accumulator and variant. -/
theorem C4_witness :
    (fbCascadeLoop [c4docB] ⟨some "u", some "x", none, some 3, none, none, none, none, none⟩).likes
      = some 3 :=
  (C4_first_writer_wins.1 [c4docB]
    ⟨some "u", some "x", none, some 3, none, none, none, none, none⟩).1 (by decide)

/-- C5 counterexample: with a first variant yielding a caption and only a
share count, the code stops (its predicate accepts shares) and never
collects the second variant's likes; under the specification's predicate
(views/likes/comments) processing would continue and collect 7 likes. -/
theorem C5_counterexample :
    (fbCascadeLoop [c5doc1, c5doc2] fbAccumInit).likes = none ∧
    (fbCascadeLoop [c5doc1, c5doc2] fbAccumInit).shares = some 5 ∧
    (fbCascadeLoopSpec [c5doc1, c5doc2] fbAccumInit).likes = some 7 := by
  decide

/-- C5 (amended): after each merge the loop evaluates the sufficiency
predicate "caption present AND at least one of likes/comments/shares is
non-null" (`fbSufficient`) and stops processing further variants exactly
when it is satisfied. -/
theorem C5_sufficiency_stops :
    ∀ (d : FbDoc) (ds : List FbDoc) (a : FbAccum),
      (fbSufficient (fbMergeStep a d) = true →
        fbCascadeLoop (d :: ds) a = fbMergeStep a d) ∧
      (fbSufficient (fbMergeStep a d) = false →
        fbCascadeLoop (d :: ds) a = fbCascadeLoop ds (fbMergeStep a d)) := by
  intro d ds a
  constructor
  · intro h
    simp [fbCascadeLoop, h]
  · intro h
    simp [fbCascadeLoop, h]

/-- C5 witness: both stopping behaviors at concrete inputs. -/
theorem C5_witness :
    fbCascadeLoop [c4docA, c5doc2] fbAccumInit =
      fbCascadeLoop [c5doc2] (fbMergeStep fbAccumInit c4docA) ∧
    fbCascadeLoop [c5doc1] fbAccumInit = fbMergeStep fbAccumInit c5doc1 := by
  constructor
  · exact (C5_sufficiency_stops c4docA [c5doc2] fbAccumInit).2 (by decide)
  · exact (C5_sufficiency_stops c5doc1 [] fbAccumInit).1 (by decide)

/-- C3 counterexample: for a 16-character non-numeric identifier (not a
`pfbid` token) the code still performs targeted window search — returning
the metrics next to the quoted identifier (20) — instead of the claimed
fall back to the untargeted global search (which yields 10). -/
theorem C3_counterexample :
    ¬ pyIsdigit "aaaaaaaaaaaaaaaa" = true ∧
    extract_likes_targeted fbDocOpaqueId.data (some "aaaaaaaaaaaaaaaa") = some 20 ∧
    extract_likes_old fbDocOpaqueId.data = some 10 := by
  refine ⟨by decide, by decide, by decide⟩

/-- C3 (amended): targeted metric extraction visits every quoted occurrence
of the identifier in document order, searching a 10,000-character window
forward then backward at each for the feedback metric-block pattern and
returning the first match; it falls back to the untargeted global pattern
search over the whole document when no identifier exists, when the
identifier is empty, starts with `pfbid`, or is a non-numeric token of at
most 15 characters (longer opaque tokens are still searched for), or when no
occurrence's windows yield a match.  On a document with two co-mingled
metric blocks the metrics within the target identifier's window are
returned, not the global first match. -/
theorem C3_targeted_extraction :
    (∀ html : List Char, extract_likes_targeted html none = extract_likes_old html) ∧
    (∀ (html : List Char) (tid : String),
      tid.data.take 5 = "pfbid".data ∨ (¬ pyIsdigit tid ∧ tid.length ≤ 15) →
      extract_likes_targeted html (some tid) = extract_likes_old html) ∧
    (∀ (html : List Char) (tid : String),
      firstWindowHit feedbackLikesPat html (finditer (('"' :: tid.data) ++ ['"']) html) = none →
      extract_likes_targeted html (some tid) = extract_likes_old html) ∧
    (∀ (html : List Char) (tid : String) (n : Nat),
      tid ≠ "" →
      ¬ (tid.data.take 5 = "pfbid".data ∨ (¬ pyIsdigit tid ∧ tid.length ≤ 15)) →
      firstWindowHit feedbackLikesPat html (finditer (('"' :: tid.data) ++ ['"']) html)
        = some n →
      extract_likes_targeted html (some tid) = some (n : Int)) ∧
    (extract_likes_targeted fbDocTwoBlocks.data (some "456") = some 20 ∧
     extract_likes_targeted fbDocTwoBlocks.data (some "123") = some 10 ∧
     extract_likes_old fbDocTwoBlocks.data = some 10) := by
  refine ⟨?_, ?_, ?_, ?_, by decide, by decide, by decide⟩
  · intro html
    rfl
  · intro html tid h
    by_cases h0 : tid = ""
    · simp only [extract_likes_targeted, if_pos h0]
    · simp only [extract_likes_targeted, if_neg h0, if_pos h]
  · intro html tid h
    by_cases h0 : tid = ""
    · simp only [extract_likes_targeted, if_pos h0]
    · by_cases h1 : tid.data.take 5 = "pfbid".data ∨ (¬ pyIsdigit tid ∧ tid.length ≤ 15)
      · simp only [extract_likes_targeted, if_neg h0, if_pos h1]
      · simp only [extract_likes_targeted, if_neg h0, if_neg h1, h]
  · intro html tid n h0 h1 h2
    simp only [extract_likes_targeted, if_neg h0, if_neg h1, h2]

/-- C3 witness: the fallback conditions and the targeted hit, each at a
concrete document and identifier. -/
theorem C3_witness :
    extract_likes_targeted "x".data (some "pfbidAB") = extract_likes_old "x".data ∧
    extract_likes_targeted "x".data (some "789") = extract_likes_old "x".data ∧
    extract_likes_targeted fbDocTwoBlocks.data (some "456") = some ((20 : Nat) : Int) := by
  refine ⟨?_, ?_, ?_⟩
  · exact C3_targeted_extraction.2.1 "x".data "pfbidAB" (by decide)
  · exact C3_targeted_extraction.2.2.1 "x".data "789" (by decide)
  · exact C3_targeted_extraction.2.2.2.1 fbDocTwoBlocks.data "456" 20 (by decide) (by decide)
      (by decide)
